import Mathlib

/-!
Verification development for the news-crawler-service repository.

The Python modules under `src/modules/news-crawler-service/src/` are embedded
shallowly below: pure string manipulation becomes functions on `String` /
`List Char`, BeautifulSoup documents become a `Node` tree with a small engine
for exactly the CSS selectors the code uses, the filesystem becomes explicit
parameters (directory listings, a read function), and wall-clock dates and
timestamps become explicit `String` parameters.
-/

/-! ## Python string primitives -/

/-- The characters `str.strip()` removes in Python: ASCII whitespace,
the C1 separators 0x1c-0x1f, NEL 0x85, and the Unicode space characters. -/
def isPySpace (c : Char) : Bool :=
  c.toNat = 32 || c.toNat = 9 || c.toNat = 10 || c.toNat = 13 || c.toNat = 11 || c.toNat = 12 ||
  (28 ≤ c.toNat && c.toNat ≤ 31) || c.toNat = 0x85 || c.toNat = 0xA0 || c.toNat = 0x1680 ||
  (0x2000 ≤ c.toNat && c.toNat ≤ 0x200A) || c.toNat = 0x2028 || c.toNat = 0x2029 ||
  c.toNat = 0x202F || c.toNat = 0x205F || c.toNat = 0x3000

/-- Python `str.strip()` on a list of characters. -/
def pyStripList (s : List Char) : List Char :=
  ((s.dropWhile isPySpace).reverse.dropWhile isPySpace).reverse

/-- Python `str.strip()`. -/
def pyStrip (s : String) : String :=
  String.mk (pyStripList s.data)

/-- Whether the pattern `pat` occurs in `s` starting at character index `i`. -/
def subAt (pat s : List Char) (i : Nat) : Bool :=
  decide ((s.drop i).take pat.length = pat)

/-- Python `str.find(pat, start)` (character indices): the least index
`i ≥ start` at which `pat` occurs, if any.  Python returns `-1` when there is
no occurrence; we return `none`. -/
def pyFindFrom (pat s : List Char) (start : Nat) : Option Nat :=
  (List.range (s.length + 1)).find? (fun i => start ≤ i && subAt pat s i)

/-- Python `sub in s` for strings. -/
def pyContains (pat s : List Char) : Bool :=
  (pyFindFrom pat s 0).isSome

/-- `p` is a prefix of `s` (Python `str.startswith`). -/
def isPre (p s : List Char) : Bool :=
  decide (s.take p.length = p)

/-- `q` is a suffix of `s` (Python `str.endswith`). -/
def isSuf (q s : List Char) : Bool :=
  decide (s.drop (s.length - q.length) = q) && decide (q.length ≤ s.length)

/-- Python `s[:n]` on strings (character slicing). -/
def pyTake (s : String) (n : Nat) : String :=
  String.mk (s.data.take n)

/-- Python `s[n:]` on strings (character slicing). -/
def pyDrop (s : String) (n : Nat) : String :=
  String.mk (s.data.drop n)

/-- Python `s[a:b]` on strings (character slicing). -/
def pySlice (s : String) (a b : Nat) : String :=
  String.mk ((s.data.take b).drop a)

/-- Python `len(s)` (number of characters). -/
def pyLen (s : String) : Nat := s.data.length

/-- Python's `{n:02d}` format directive: decimal, zero-padded to width 2. -/
def pad2 (n : Nat) : String :=
  if n < 10 then "0" ++ toString n else toString n

/-- Python `enumerate(l, k)`. -/
def pyEnumFrom (k : Nat) : List α → List (Nat × α)
  | [] => []
  | a :: as => (k, a) :: pyEnumFrom (k + 1) as

/-- `os.path.join(dir, name)` for the shapes arising here: `name` comes from
`os.listdir` so it is relative and slash-free. -/
def pyPathJoin (dir name : String) : String :=
  if dir = "" then name
  else if isSuf ['/'] dir.data then dir ++ name
  else dir ++ "/" ++ name

/-- Python `str.split(sep)` for a one-character separator: splits at every
occurrence, keeping empty pieces. -/
def splitChar (sep : Char) : List Char → List (List Char)
  | [] => [[]]
  | c :: rest =>
    let r := splitChar sep rest
    if c = sep then [] :: r
    else
      match r with
      | [] => [[c]]
      | h :: t => (c :: h) :: t

/-- `str.split(sep)` on strings, one-character separator. -/
def pySplitChar (sep : Char) (s : String) : List String :=
  (splitChar sep s.data).map String.mk

/-- Split at every character satisfying `p`, keeping empty pieces. -/
def splitPList (p : Char → Bool) : List Char → List (List Char)
  | [] => [[]]
  | c :: rest =>
    let r := splitPList p rest
    if p c then [] :: r
    else
      match r with
      | [] => [[c]]
      | h :: t => (c :: h) :: t

/-- Join strings with a separator (`sep.join(l)`). -/
def joinWith (sep : String) : List String → String
  | [] => ""
  | a :: as => as.foldl (fun acc x => acc ++ sep ++ x) a

/-- Python `ch in s` for a single character. -/
def strContainsChar (s : String) (ch : Char) : Bool :=
  s.data.any (fun c => c = ch)

/-- Lookup in a Python dict represented as its insertion sequence: repeated
assignment to the same key overwrites, so the last binding wins. -/
def dictGet (m : List (String × String)) (k : String) : Option String :=
  (m.reverse.find? (fun p => p.1 = k)).map (fun p => p.2)

/-- Python `dict.get(k, d)`. -/
def dictGetD (m : List (String × String)) (k d : String) : String :=
  (dictGet m k).getD d

/-! ## Token counter (`summarize/token_counter.py`)

`TokenCounter._is_chinese(char)` tests `'CJK' in unicodedata.name(char)`
(False when the lookup raises).  The character names containing "CJK" are
exactly the CJK ideograph/radical/stroke blocks enumerated below; ASCII and
other Latin text is never counted as Chinese. -/

/-- Model of `TokenCounter._is_chinese`: membership in the Unicode blocks
whose character names contain "CJK" (unified ideographs and their
extensions, compatibility ideographs, CJK radicals, CJK strokes). -/
def is_chinese (c : Char) : Bool :=
  (0x4E00 ≤ c.toNat && c.toNat ≤ 0x9FFF) ||      -- CJK Unified Ideographs
  (0x3400 ≤ c.toNat && c.toNat ≤ 0x4DBF) ||      -- Extension A
  (0x2E80 ≤ c.toNat && c.toNat ≤ 0x2EF3) ||      -- CJK Radicals Supplement
  (0x31C0 ≤ c.toNat && c.toNat ≤ 0x31E3) ||      -- CJK Strokes
  (0xF900 ≤ c.toNat && c.toNat ≤ 0xFAD9) ||      -- CJK Compatibility Ideographs
  (0x20000 ≤ c.toNat && c.toNat ≤ 0x2A6DF) ||    -- Extension B
  (0x2A700 ≤ c.toNat && c.toNat ≤ 0x2EBE0) ||    -- Extensions C, D, E, F
  (0x2F800 ≤ c.toNat && c.toNat ≤ 0x2FA1D) ||    -- Compatibility Supplement
  (0x30000 ≤ c.toNat && c.toNat ≤ 0x3134A)       -- Extension G

/-- `TokenCounter.count_tokens`: strip the text, count CJK characters 1:1,
count the remaining characters at 1/4 token each, and apply
`int(total + 0.5)`.  The Python arithmetic is binary floating point, which is
exact for quarters at these magnitudes, so it is carried out in `ℚ` here;
`int()` truncates toward zero, which on the nonnegative total is the floor. -/
def count_tokens (text : String) : Nat :=
  if text = "" then 0
  else
    let t := pyStripList text.data
    let chinese_chars : Nat := (t.filter is_chinese).length
    let non_chinese_chars : Nat := t.length - chinese_chars
    let total : ℚ := (chinese_chars : ℚ) + (non_chinese_chars : ℚ) / 4
    (Int.floor (total + 1 / 2)).toNat

/-- One chat message as built by the summarizer: a `role` and a `content`
string (`message.get('content', '')` reads the `content` field). -/
structure PyMessage where
  role : String
  content : String
deriving Repr, DecidableEq

/-- `TokenCounter.estimate_input_tokens`: 0 for an empty message list,
otherwise the per-message content tokens plus a fixed overhead of 4 per
message, plus a 3-token constant for the request. -/
def estimate_input_tokens (messages : List PyMessage) : Nat :=
  if messages = [] then 0
  else messages.foldl (fun acc m => acc + (count_tokens m.content + 4)) 0 + 3

/-- Closed form of `count_tokens`: the rational arithmetic collapses to
natural-number division (`⌊c + n/4 + 1/2⌋ = c + (n+2)/4`). -/
theorem count_tokens_eval (text : String) :
    count_tokens text =
      if text = "" then 0
      else
        let t := pyStripList text.data
        let c := (t.filter is_chinese).length
        c + ((t.length - c) + 2) / 4 := by
  unfold count_tokens
  split
  · rfl
  · set t := pyStripList text.data with ht
    set c := (t.filter is_chinese).length with hc
    set n := t.length - c with hn
    have h1 : ((c : ℚ) + (n : ℚ) / 4 + 1 / 2) = ((4 * c + n + 2 : ℕ) : ℚ) / ((4 : ℕ) : ℚ) := by
      push_cast
      ring
    simp only [h1, Rat.floor_natCast_div_natCast, Int.toNat_natCast]
    omega

/-! ## Concrete regular expressions

The code uses a handful of fixed regular expressions; each is compiled by
hand into a matcher with Python `re.search`/`re.findall` leftmost semantics.
`\d` is modelled as an ASCII digit (Python's `\d` also accepts other Unicode
decimal digits, which do not occur in the inputs concerned). -/

/-- Greedy `\d{1,2}` followed by the literal `lit`: consume two digits when
the literal follows them, else one digit when the literal follows it.
Returns the number of characters consumed (digits plus literal) and the
remaining characters. -/
def digitsThen (lit : Char) : List Char → Option (Nat × List Char)
  | a :: b :: c :: rest =>
    if a.isDigit then
      if b.isDigit && c = lit then some (3, rest)
      else if b = lit then some (2, c :: rest)
      else none
    else none
  | a :: b :: rest =>
    if a.isDigit && b = lit then some (2, rest) else none
  | _ => none

/-- Match of `\d{4}年\d{1,2}月\d{1,2}日` starting at character index `i`,
returning the matched characters. -/
def cnDateMatchAt (s : List Char) (i : Nat) : Option (List Char) :=
  match s.drop i with
  | d1 :: d2 :: d3 :: d4 :: y :: rest =>
    if d1.isDigit && d2.isDigit && d3.isDigit && d4.isDigit && y = '年' then
      match digitsThen '月' rest with
      | some (k1, rest1) =>
        match digitsThen '日' rest1 with
        | some (k2, _) => some ((s.drop i).take (5 + k1 + k2))
        | none => none
      | none => none
    else none
  | _ => none

/-- First (leftmost) match of `(\d{4}年\d{1,2}月\d{1,2}日)` in `s`:
`re.findall(...)[0]` as used by `AISummarizer._generate_mock_summary`. -/
def cn_date_first (s : String) : Option String :=
  ((List.range (s.data.length + 1)).findSome? (cnDateMatchAt s.data)).map String.mk

/-- Match of `c(\d+)\.html` starting at index `i`, returning the capture
(the digit run).  The greedy `\d+` takes the maximal digit run; shorter runs
cannot satisfy the following `\.` since a digit is not a dot. -/
def newsIdMatchAt (s : List Char) (i : Nat) : Option (List Char) :=
  match s.drop i with
  | c :: rest =>
    if c = 'c' then
      let ds := rest.takeWhile Char.isDigit
      if ds ≠ [] && isPre ['.', 'h', 't', 'm', 'l'] (rest.drop ds.length) then some ds
      else none
    else none
  | [] => none

/-- `re.search(r'c(\d+)\.html', s)` returning group 1. -/
def re_search_news_id (s : String) : Option String :=
  ((List.range (s.data.length + 1)).findSome? (newsIdMatchAt s.data)).map String.mk

/-- Match of `/(\d{6})/(\d{2})/` starting at index `i`, returning the two
captures (six-digit year-month, two-digit day). -/
def dateUrlMatchAt (s : List Char) (i : Nat) : Option (List Char × List Char) :=
  match s.drop i with
  | s0 :: a1 :: a2 :: a3 :: a4 :: a5 :: a6 :: s1 :: b1 :: b2 :: s2 :: _ =>
    if s0 = '/' && a1.isDigit && a2.isDigit && a3.isDigit && a4.isDigit &&
        a5.isDigit && a6.isDigit && s1 = '/' && b1.isDigit && b2.isDigit && s2 = '/' then
      some ([a1, a2, a3, a4, a5, a6], [b1, b2])
    else none
  | _ => none

/-- `re.search(r'/(\d{6})/(\d{2})/', s)` returning the two groups. -/
def re_search_date_url (s : String) : Option (String × String) :=
  ((List.range (s.data.length + 1)).findSome? (dateUrlMatchAt s.data)).map
    (fun p => (String.mk p.1, String.mk p.2))

/-- A character the middle part `[^\s"\']` of the original-URL pattern
accepts. -/
def allowedUrlChar (c : Char) : Bool :=
  !isPySpace c && c ≠ '"' && c ≠ '\''

/-- Match of `(http://paper\.people\.com\.cn/[^\s"\']+?\.html)` starting at
index `i`.  The lazy `+?` stops at the first position from which `\.html`
matches. -/
def origUrlMatchAt (s : List Char) (i : Nat) : Option (List Char) :=
  let lit := "http://paper.people.com.cn/".data
  let t := s.drop i
  if isPre lit t then
    let rest := t.drop lit.length
    match (List.range (rest.length + 1)).find?
        (fun m => 1 ≤ m && (rest.take m).all allowedUrlChar &&
          isPre ['.', 'h', 't', 'm', 'l'] (rest.drop m)) with
    | some m => some (lit ++ rest.take m ++ ['.', 'h', 't', 'm', 'l'])
    | none => none
  else none

/-- `re.search` for the original-URL pattern of `ArticleParser.parse_article`,
returning group 1. -/
def re_search_orig_url (s : String) : Option String :=
  ((List.range (s.data.length + 1)).findSome? (origUrlMatchAt s.data)).map String.mk

/-! ## File finder (`summarize/file_finder.py`)

The filesystem appears as explicit parameters: `listing` is what
`os.listdir(output_dir)` returns and `isFile p` is `os.path.isfile(p)`.
The current and previous Beijing dates are the `today`/`yesterday`
parameters (`get_current_date`/`get_yesterday_date`). -/

/-- The filename test `re.match(f"^{date}-.*\.md$", name)` (the dates used
are digit strings, so the interpolation adds no metacharacters; `.*` is
newline-free and `$` tolerates one trailing newline, neither of which can
matter under the conjunction with `isShapePattern` below). -/
def matchesDatePattern (date name : String) : Bool :=
  isPre (date ++ "-").data name.data && isSuf ['.', 'm', 'd'] name.data &&
    decide (date.data.length + 4 ≤ name.data.length)

/-- The filename test `re.match(r'^\d{8}-\d{4}\.md$', name)`. -/
def isShapePattern (name : String) : Bool :=
  let cs := name.data
  decide (cs.length = 16) && (cs.take 8).all Char.isDigit && isPre ['-'] (cs.drop 8) &&
    ((cs.drop 9).take 4).all Char.isDigit && decide (cs.drop 13 = ['.', 'm', 'd'])

/-- `FileFinder._find_files_by_pattern`, specialized to the date-headed
patterns the class passes it: keep the listed names matching both the date
pattern and the strict `YYYYMMDD-XXXX.md` shape, drop non-files, and return
the directory-joined paths. -/
def find_files_by_pattern (output_dir : String) (listing : List String)
    (isFile : String → Bool) (date : String) : List String :=
  (listing.filter (fun n =>
      matchesDatePattern date n && isShapePattern n && isFile (pyPathJoin output_dir n))).map
    (pyPathJoin output_dir)

/-- `FileFinder.find_matching_files`: today's matches when non-empty, else
yesterday's matches when non-empty, else the empty list. -/
def find_matching_files (output_dir : String) (listing : List String)
    (isFile : String → Bool) (today yesterday : String) : List String :=
  let today_files := find_files_by_pattern output_dir listing isFile today
  if today_files ≠ [] then today_files
  else
    let yesterday_files := find_files_by_pattern output_dir listing isFile yesterday
    if yesterday_files ≠ [] then yesterday_files
    else []

/-! ## File processor (`summarize/file_processor.py`) -/

/-- The dictionary returned by `FileProcessor.extract_content`. -/
structure ContentData where
  file_path : String
  file_name : String
  metadata : List (String × String)
  content : String
deriving Repr, DecidableEq

/-- `os.path.basename` for the slash-separated paths used here. -/
def pyBasename (p : String) : String :=
  String.mk (p.data.reverse.takeWhile (fun c => c ≠ '/')).reverse

/-- Frontmatter parsing loop of `FileProcessor.extract_content`: split on
newlines, keep the lines containing `:`, split each at the first `:`
(`line.split(':', 1)`) and strip both sides.  Assignments into the Python
dict are modelled by appending; `dictGet` reads the last binding. -/
def parse_frontmatter_pairs (frontmatter : String) : List (String × String) :=
  (pySplitChar '\n' frontmatter).foldl
    (fun acc line =>
      if strContainsChar line ':' then
        let parts := pySplitChar ':' line
        acc ++ [(pyStrip (parts.headD ""), pyStrip (joinWith ":" parts.tail))]
      else acc)
    []

/-- `FileProcessor.extract_content`.  `readFile path` is `none` when the
path is empty/nonexistent or reading raises, and `some content` otherwise.
A found closing delimiter has index ≥ 3, so Python's `end_index > 0` test is
exactly the `some` case of the find. -/
def extract_content (readFile : String → Option String) (file_path : String) :
    Option ContentData :=
  if file_path = "" then none
  else
    match readFile file_path with
    | none => none
    | some content =>
      if isPre ['-', '-', '-'] content.data then
        match pyFindFrom ['-', '-', '-'] content.data 3 with
        | some end_index =>
          let frontmatter := pyStrip (pySlice content 3 end_index)
          let main_content := pyStrip (pyDrop content (end_index + 3))
          some ⟨file_path, pyBasename file_path, parse_frontmatter_pairs frontmatter, main_content⟩
        | none => some ⟨file_path, pyBasename file_path, [], content⟩
      else some ⟨file_path, pyBasename file_path, [], content⟩

/-! ## Mock summarizer (`summarize/ai_summarizer.py`) -/

/-- `AISummarizer._generate_mock_summary`.  `today` is
`datetime.now(Asia/Shanghai).strftime('%Y-%m-%d')` at the call. -/
def generate_mock_summary (content_data : ContentData) (today : String) : String :=
  let metadata := content_data.metadata
  let title := dictGetD metadata "title" "未知标题"
  let date := dictGetD metadata "date" today
  let content := content_data.content
  let times := cn_date_first content
  let time_str := times.getD date
  -- event_desc is computed by the Python code but does not occur in the
  -- template it returns
  let _event_desc : String :=
    if pyLen content > 0 then pyStrip (pyTake content 200) else "无法提取事件描述"
  "时间：" ++ time_str ++ "\n地点：模拟地点\n人物：模拟人物\n事件：" ++ title ++
    "\n起因：这是一个模拟总结，由于未提供API密钥，系统生成了这个示例。" ++
    "\n结果：为了完整展示功能，系统提供了这个模板化的总结。实际使用时，请提供有效的DeepSeek API密钥。"


/-! ## HTML document model

BeautifulSoup documents (built with the `html.parser` builder, which adds no
implicit `html`/`body` wrappers) are modelled as forests of nodes.  Attribute
values are kept as written; the multi-valued `class` attribute is split on
whitespace runs on access, as the soup does. -/

/-- An HTML node: an element with tag, attributes and children, or a text
node. -/
inductive Node where
  | elem (tag : String) (attrs : List (String × String)) (children : List Node)
  | text (s : String)
deriving Repr, Inhabited

/-- The tag of an element node. -/
def Node.tagOf : Node → Option String
  | .elem t _ _ => some t
  | .text _ => none

/-- The children of a node. -/
def Node.childrenOf : Node → List Node
  | .elem _ _ cs => cs
  | .text _ => []

/-- Attribute lookup (`tag.get(name)` / `tag[name]`). -/
def attrGet (n : Node) (k : String) : Option String :=
  match n with
  | .elem _ attrs _ => (attrs.find? (fun p => p.1 = k)).map (fun p => p.2)
  | .text _ => none

/-- Split a string on runs of whitespace, dropping empty pieces (how the
soup splits the multi-valued `class` attribute). -/
def strWords (s : String) : List String :=
  ((splitPList isPySpace s.data).map String.mk).filter (fun w => w ≠ "")

/-- The class list of an element. -/
def classList (n : Node) : List String :=
  strWords ((attrGet n "class").getD "")

mutual

/-- The text-node contents of a node, in document order. -/
def nodeTexts : Node → List String
  | Node.text s => [s]
  | Node.elem _ _ cs => nodesTexts cs

/-- The text-node contents of a forest, in document order. -/
def nodesTexts : List Node → List String
  | [] => []
  | c :: cs => nodeTexts c ++ nodesTexts cs

end

/-- `get_text(strip=True)`: each text fragment stripped, concatenated. -/
def strippedText (n : Node) : String :=
  String.join ((nodeTexts n).map pyStrip)

mutual

/-- The element nodes of a tree paired with their ancestor chains (nearest
ancestor first), in document order, the root element included. -/
def nodeElemsA (anc : List Node) : Node → List (Node × List Node)
  | Node.text _ => []
  | Node.elem t a cs => (Node.elem t a cs, anc) :: nodesElemsA (Node.elem t a cs :: anc) cs

/-- The element nodes of a forest paired with their ancestor chains, in
document order. -/
def nodesElemsA (anc : List Node) : List Node → List (Node × List Node)
  | [] => []
  | c :: cs => nodeElemsA anc c ++ nodesElemsA anc cs

end

/-- All elements of a document forest with ancestor chains, document order. -/
def docElems (doc : List Node) : List (Node × List Node) :=
  nodesElemsA [] doc

/-- The descendant elements of a node (the node itself excluded), document
order, with ancestor chains rooted below the node. -/
def descendantElems (n : Node) : List (Node × List Node) :=
  nodesElemsA [n] n.childrenOf

/-- Minimal-entity escaping of one text character when serializing. -/
def escChar (c : Char) : String :=
  if c = '&' then "&amp;"
  else if c = '<' then "&lt;"
  else if c = '>' then "&gt;"
  else String.singleton c

/-- Minimal-entity escaping the soup applies to text when serializing. -/
def escText (s : String) : String :=
  String.join (s.data.map escChar)

/-- Escaping for serialized attribute values (the soup would switch to
single quotes for values containing a double quote; no such value occurs in
the documents handled here). -/
def escAttr (s : String) : String :=
  String.join (s.data.map (fun c => if c = '"' then "&quot;" else escChar c))

mutual

/-- `str(element)`: serialize a node back to HTML (non-void elements, as in
the content handled here). -/
def renderNode : Node → String
  | Node.text s => escText s
  | Node.elem t attrs cs =>
    "<" ++ t ++
      String.join (attrs.map (fun p => " " ++ p.1 ++ "=\"" ++ escAttr p.2 ++ "\"")) ++
      ">" ++ renderNodes cs ++ "</" ++ t ++ ">"

/-- Serialize a forest. -/
def renderNodes : List Node → String
  | [] => ""
  | c :: cs => renderNode c ++ renderNodes cs

end

/-! ## CSS selectors

Only the selector forms the code uses are needed: simple selectors made of
an optional tag, classes, an id or an id-starts-with constraint, combined by
descendant or direct-child combinators.  `select_one`/`select` return
matches in document order. -/

/-- A simple selector: optional tag name, required classes, optional exact
id, optional id `^=` constraint. -/
structure SimpleSel where
  tag : Option String
  classes : List String
  id : Option String
  idStart : Option String
deriving Repr, DecidableEq

/-- A compound selector built from simple selectors with descendant and
direct-child combinators (left part constrains ancestors/parent). -/
inductive Sel where
  | simple (s : SimpleSel)
  | desc (rest : Sel) (s : SimpleSel)
  | child (rest : Sel) (s : SimpleSel)
deriving Repr, DecidableEq

/-- Whether an element matches a simple selector. -/
def simpleMatches (n : Node) (s : SimpleSel) : Bool :=
  match n with
  | .text _ => false
  | .elem t _ _ =>
    (match s.tag with | none => true | some tg => t = tg) &&
    s.classes.all (fun c => (classList n).contains c) &&
    (match s.id with | none => true | some i => attrGet n "id" = some i) &&
    (match s.idStart with
     | none => true
     | some p =>
       match attrGet n "id" with
       | some i => isPre p.data i.data
       | none => false)

/-- Each element of an ancestor chain paired with its own ancestors. -/
def ancSuffixes : List Node → List (Node × List Node)
  | [] => []
  | p :: rest => (p, rest) :: ancSuffixes rest

/-- Whether an element with ancestor chain `anc` matches a selector: the
rightmost simple selector matches the element, a descendant combinator asks
some ancestor to match the remainder, a child combinator asks the parent. -/
def selMatches : Sel → Node → List Node → Bool
  | .simple s, n, _ => simpleMatches n s
  | .desc r s, n, anc =>
    simpleMatches n s && (ancSuffixes anc).any (fun pr => selMatches r pr.1 pr.2)
  | .child r s, n, anc =>
    simpleMatches n s &&
      (match anc with
       | [] => false
       | p :: rest => selMatches r p rest)

/-- `soup.select_one(sel)`: first matching element in document order. -/
def select_one (doc : List Node) (sel : Sel) : Option (Node × List Node) :=
  (docElems doc).find? (fun p => selMatches sel p.1 p.2)

/-- `soup.select(sel)`: all matching elements in document order. -/
def selectAll (doc : List Node) (sel : Sel) : List (Node × List Node) :=
  (docElems doc).filter (fun p => selMatches sel p.1 p.2)

/-- `soup.find_all(tag)` over a document forest. -/
def findAllTag (doc : List Node) (t : String) : List (Node × List Node) :=
  (docElems doc).filter (fun p => p.1.tagOf = some t)

/-- `element.find_all('a', href=True)`: href-bearing anchors among the
descendants of an element. -/
def findAnchorsHref (n : Node) : List Node :=
  ((descendantElems n).map (fun p => p.1)).filter
    (fun a => a.tagOf = some "a" && (attrGet a "href").isSome)

/-- `p.find_parent('div', class_=["header", "footer"])` as a truth value:
whether some ancestor is a `div` carrying class `header` or `footer`. -/
def hasHeaderFooterParent (anc : List Node) : Bool :=
  anc.any (fun a =>
    a.tagOf = some "div" && ((classList a).contains "header" || (classList a).contains "footer"))

/-- `soup.find('meta', {'name': 'author'})`. -/
def findMetaAuthor (doc : List Node) : Option Node :=
  ((docElems doc).map (fun p => p.1)).find?
    (fun n => n.tagOf = some "meta" && attrGet n "name" = some "author")

/-! ## `urllib.parse.urljoin`

Model of CPython's `urljoin` for the hierarchical `http(s)` URLs handled by
the crawler (such schemes are in both `uses_relative` and `uses_netloc`; the
`params` component is empty for these URLs and is folded into the path). -/

/-- The five components `urlsplit` produces. -/
structure UrlParts where
  scheme : String
  netloc : String
  path : String
  query : String
  fragment : String
deriving Repr, DecidableEq

/-- A character allowed in a URL scheme after the first. -/
def isSchemeChar (c : Char) : Bool :=
  c.isAlphanum || c = '+' || c = '-' || c = '.'

/-- ASCII lowercase of a string. -/
def strLower (s : String) : String :=
  String.mk (s.data.map Char.toLower)

/-- Split off `scheme:` when the part before the first `:` is a valid scheme
(first character a letter, the rest scheme characters); otherwise use the
caller's default scheme. -/
def splitScheme (url default_scheme : String) : String × String :=
  match pyFindFrom [':'] url.data 0 with
  | some i =>
    if 0 < i && (url.data.headD ' ').isAlpha && (url.data.take i).all isSchemeChar then
      (strLower (pyTake url i), pyDrop url (i + 1))
    else (default_scheme, url)
  | none => (default_scheme, url)

/-- Index of the first character of `s` that is `/`, `?` or `#`, else the
length of `s` (where `urlsplit` ends the netloc). -/
def netlocEnd (s : List Char) : Nat :=
  ((s.findIdx? (fun c => c = '/' || c = '?' || c = '#')).getD s.length)

/-- `urllib.parse.urlsplit(url, default_scheme)`. -/
def urlsplit (url default_scheme : String) : UrlParts :=
  let (scheme, rest) := splitScheme url default_scheme
  let (netloc, rest) :=
    if isPre ['/', '/'] rest.data then
      let body := pyDrop rest 2
      let k := netlocEnd body.data
      (pyTake body k, pyDrop body k)
    else ("", rest)
  let (rest, fragment) :=
    match pyFindFrom ['#'] rest.data 0 with
    | some i => (pyTake rest i, pyDrop rest (i + 1))
    | none => (rest, "")
  let (path, query) :=
    match pyFindFrom ['?'] rest.data 0 with
    | some i => (pyTake rest i, pyDrop rest (i + 1))
    | none => (rest, "")
  ⟨scheme, netloc, path, query, fragment⟩

/-- `urllib.parse.urlunsplit`. -/
def urlunsplit (p : UrlParts) : String :=
  let url := p.path
  let url :=
    if p.netloc ≠ "" || isPre ['/', '/'] url.data then
      "//" ++ p.netloc ++ (if url ≠ "" && !isPre ['/'] url.data then "/" ++ url else url)
    else url
  let url := if p.scheme ≠ "" then p.scheme ++ ":" ++ url else url
  let url := if p.query ≠ "" then url ++ "?" ++ p.query else url
  if p.fragment ≠ "" then url ++ "#" ++ p.fragment else url

/-- The in-place update `segments[1:-1] = filter(None, segments[1:-1])`. -/
def filterMiddle (l : List String) : List String :=
  match l with
  | [] => []
  | [a] => [a]
  | a :: rest =>
    match rest.getLast? with
    | none => [a]
    | some z => a :: (rest.dropLast.filter (fun s => s ≠ "")) ++ [z]

/-- The dot-segment resolution loop of `urljoin` (`'..'` pops when possible,
`'.'` is skipped, anything else is appended). -/
def resolveSegments (segments : List String) : List String :=
  segments.foldl
    (fun acc seg =>
      if seg = ".." then acc.dropLast
      else if seg = "." then acc
      else acc ++ [seg])
    []

/-- `urllib.parse.urljoin(base, url)` (CPython's algorithm, for relative-
capable schemes such as `http`). -/
def urljoin (base url : String) : String :=
  if base = "" then url
  else if url = "" then base
  else
    let b := urlsplit base ""
    let r := urlsplit url b.scheme
    if r.scheme ≠ b.scheme then url
    else if r.netloc ≠ "" then urlunsplit ⟨r.scheme, r.netloc, r.path, r.query, r.fragment⟩
    else
      let netloc := b.netloc
      if r.path = "" then
        urlunsplit ⟨r.scheme, netloc, b.path, (if r.query = "" then b.query else r.query), r.fragment⟩
      else
        let segments :=
          if isPre ['/'] r.path.data then pySplitChar '/' r.path
          else
            let base_parts := pySplitChar '/' b.path
            let base_parts :=
              if base_parts.getLast? ≠ some "" then base_parts.dropLast else base_parts
            filterMiddle (base_parts ++ pySplitChar '/' r.path)
        let resolved := resolveSegments segments
        let resolved :=
          if segments.getLast? = some "." || segments.getLast? = some ".." then resolved ++ [""]
          else resolved
        let joined := joinWith "/" resolved
        urlunsplit ⟨r.scheme, netloc, (if joined = "" then "/" else joined), r.query, r.fragment⟩

/-! ## Selector constants

Each CSS selector string appearing in the code, compiled to `Sel`. -/

/-- A bare tag selector. -/
def tagSel (t : String) : SimpleSel := ⟨some t, [], none, none⟩

/-- A tag-with-classes selector (`div.article`, `div.main.w1000`, ...). -/
def tagClsSel (t : String) (cs : List String) : SimpleSel := ⟨some t, cs, none, none⟩

/-- A bare class selector (`.article`). -/
def clsSel (c : String) : SimpleSel := ⟨none, [c], none, none⟩

/-- `ArticleParser.parse_article` title selectors, in order: `div.article h1`,
`h1`, `div.article-box h1`, `h2.title`, `title`. -/
def title_selectors : List Sel :=
  [.desc (.simple (tagClsSel "div" ["article"])) (tagSel "h1"),
   .simple (tagSel "h1"),
   .desc (.simple (tagClsSel "div" ["article-box"])) (tagSel "h1"),
   .simple (tagClsSel "h2" ["title"]),
   .simple (tagSel "title")]

/-- `ArticleParser.parse_article` author selectors: `div.article p.sec`,
`p.author`, `span.author`. -/
def author_selectors : List Sel :=
  [.desc (.simple (tagClsSel "div" ["article"])) (tagClsSel "p" ["sec"]),
   .simple (tagClsSel "p" ["author"]),
   .simple (tagClsSel "span" ["author"])]

/-- `span.newstime`. -/
def newstimeSel : Sel := .simple (tagClsSel "span" ["newstime"])

/-- `p.ban`. -/
def banSel : Sel := .simple (tagClsSel "p" ["ban"])

/-- `div.date-box p`. -/
def dateBoxPSel : Sel := .desc (.simple (tagClsSel "div" ["date-box"])) (tagSel "p")

/-- `ArticleParser.parse_article` content selectors: `div#ozoom`,
`div.article`, `div.article-content`, `div.content`. -/
def content_selectors : List Sel :=
  [.simple ⟨some "div", [], some "ozoom", none⟩,
   .simple (tagClsSel "div" ["article"]),
   .simple (tagClsSel "div" ["article-content"]),
   .simple (tagClsSel "div" ["content"])]

/-- `ArticleContentFetcher.extract_article_content` selectors, in order. -/
def article_selectors : List Sel :=
  [.child (.child (.child (.child (.simple (tagSel "body"))
      (tagClsSel "div" ["main", "w1000"])) (tagClsSel "div" ["right", "right-main"]))
      (tagClsSel "div" ["article-box"])) (tagClsSel "div" ["article"]),
   .simple (clsSel "article"),
   .simple ⟨none, [], some "ozoom", none⟩,
   .desc (.simple (clsSel "article-box")) (clsSel "article"),
   .simple (clsSel "article-content"),
   .simple ⟨none, [], none, some "articleContent"⟩]

/-- `body > div.main.w1000 > div.right.right-main > div.news > ul`
(`PeoplesDailyParser.extract_news_list`). -/
def newsListSel : Sel :=
  .child (.child (.child (.child (.simple (tagSel "body"))
    (tagClsSel "div" ["main", "w1000"])) (tagClsSel "div" ["right", "right-main"]))
    (tagClsSel "div" ["news"])) (tagSel "ul")

/-! ## News-list extraction (`crawler/parser.py`) -/

/-- One entry of the news list. -/
structure NewsItem where
  title : String
  url : String
  news_id : String
deriving Repr, DecidableEq

/-- One section of an edition with its news list (as assembled by the
crawler and consumed by the report generators). -/
structure VersionData where
  title : String
  url : String
  version_id : Nat
  news : List NewsItem
deriving Repr, DecidableEq

/-- `PeoplesDailyParser._extract_news_id`: group 1 of `c(\d+)\.html`, the
empty string when the pattern does not match. -/
def extract_news_id (url : String) : String :=
  (re_search_news_id url).getD ""

/-- `PeoplesDailyParser.extract_news_list`: locate the news-list `ul`; for
each href-bearing anchor below it produce a `NewsItem` with the stripped
link text, the base-resolved URL and the extracted news id.  (The
`'/content/' in news_url` branch in the code only logs.) -/
def extract_news_list (doc : List Node) (base_url : String) : List NewsItem :=
  match select_one doc newsListSel with
  | none => []
  | some (ul, _) =>
    (findAnchorsHref ul).map (fun link =>
      let href := (attrGet link "href").getD ""
      ⟨strippedText link, urljoin base_url href, extract_news_id href⟩)
def htmlHead1 : String :=
  "\n<!DOCTYPE html>\n<html>\n<head>\n    <meta charset=\"utf-8\">\n    <title>人民日报 - "

def htmlHead2 : String :=
  " - 全版面新闻汇总</title>\n    <style>\n        body \x7b font-family: \"Microsoft YaHei\", Arial, sans-serif; margin: 0; padding: 20px; background-color: #f5f5f5; \x7d\n        .container \x7b max-width: 1200px; margin: 0 auto; background-color: #fff; padding: 20px; box-shadow: 0 0 10px rgba(0,0,0,0.1); \x7d\n        .header \x7b text-align: center; margin-bottom: 30px; padding-bottom: 20px; border-bottom: 1px solid #eee; \x7d\n        .version \x7b margin-bottom: 40px; \x7d\n        .version-title \x7b color: #c00; font-size: 24px; padding-bottom: 10px; border-bottom: 2px solid #c00; margin-bottom: 15px; \x7d\n        .news-list \x7b list-style-type: none; padding-left: 0; \x7d\n        .news-item \x7b margin-bottom: 15px; padding: 10px; border-bottom: 1px dashed #eee; \x7d\n        .news-item:hover \x7b background-color: #f9f9f9; \x7d\n        .news-link \x7b color: #333; text-decoration: none; font-size: 16px; \x7d\n        .news-link:hover \x7b color: #c00; \x7d\n        .footer \x7b text-align: center; margin-top: 30px; padding-top: 20px; border-top: 1px solid #eee; color: #999; \x7d\n    </style>\n</head>\n<body>\n    <div class=\"container\">\n        <div class=\"header\">\n            <h1>人民日报 - "

def htmlHead3 : String :=
  "</h1>\n            <p>全版面新闻汇总</p>\n        </div>\n        \n        <div class=\"content\">\n"

def htmlVer1 : String :=
  "\n            <div class=\"version\">\n                <h2 class=\"version-title\"><a href=\""

def htmlVer2 : String :=
  "\" target=\"_blank\">"

def htmlVer3 : String :=
  "</a></h2>\n                <ul class=\"news-list\">\n"

def htmlItem1 : String :=
  "\n                    <li class=\"news-item\">\n                        <a href=\""

def htmlItem2 : String :=
  "\" class=\"news-link\" target=\"_blank\">"

def htmlItem3 : String :=
  "</a>\n                    </li>\n"

def htmlClose : String :=
  "\n                </ul>\n            </div>\n"

def htmlFoot1 : String :=
  "\n        </div>\n        \n        <div class=\"footer\">\n            <p>数据来源: 人民日报 - http://paper.people.com.cn</p>\n            <p>爬取时间: "

def htmlFoot2 : String :=
  " (北京时间)</p>\n        </div>\n    </div>\n</body>\n</html>\n"

/-- The synthesized section URL both report generators build from the date
and the 1-based enumeration position. -/
def sectionUrl (date_string : String) (i : Nat) : String :=
  "http://paper.people.com.cn/rmrb/pc/layout/" ++ pySlice date_string 0 6 ++ "/" ++
    pySlice date_string 6 8 ++ "/node_" ++ pad2 i ++ ".html"

/-- The `YYYY年MM月DD日` display form of a `YYYYMMDD` date string. -/
def displayDate (date_string : String) : String :=
  pySlice date_string 0 4 ++ "年" ++ pySlice date_string 4 6 ++ "月" ++
    pySlice date_string 6 8 ++ "日"

/-- `PeoplesDailyParser.generate_html_report`, with the crawl timestamp
passed in as `now`. -/
def generate_html_report (versions_data : List VersionData) (date_string now : String) : String :=
  let display_date := displayDate date_string
  let html0 := htmlHead1 ++ display_date ++ htmlHead2 ++ display_date ++ htmlHead3
  let html1 := (pyEnumFrom 1 versions_data).foldl
    (fun acc iv =>
      let version_url := sectionUrl date_string iv.1
      let acc := acc ++ htmlVer1 ++ version_url ++ htmlVer2 ++ iv.2.title ++ htmlVer3
      let acc := iv.2.news.foldl
        (fun a n => a ++ htmlItem1 ++ n.url ++ htmlItem2 ++ n.title ++ htmlItem3) acc
      acc ++ htmlClose)
    html0
  html1 ++ htmlFoot1 ++ now ++ htmlFoot2

/-! ## Markdown index report (`converter/formatter.py`) -/

/-- `MarkdownFormatter.add_frontmatter` (all metadata values used are
strings, so the `str(value)` branch coincides). -/
def add_frontmatter (metadata : List (String × String)) : String :=
  "---\n" ++
    metadata.foldl (fun acc kv => acc ++ kv.1 ++ ": " ++ kv.2 ++ "\n") "" ++
    "---\n"

/-- `MarkdownFormatter.generate_markdown_report`, with the crawl timestamp
passed in as `now`. -/
def generate_markdown_report (versions_data : List VersionData) (date_string now : String) : String :=
  let display_date := displayDate date_string
  let md0 := add_frontmatter
    [("title", "人民日报 - " ++ display_date), ("description", "全版面新闻汇总"),
     ("sidebar", "auto")]
  let md0 := md0 ++ "\n# 人民日报 - " ++ display_date ++ "\n\n全版面新闻汇总\n\n"
  let md1 := (pyEnumFrom 1 versions_data).foldl
    (fun acc iv =>
      let version_url := sectionUrl date_string iv.1
      let acc := acc ++ "## [" ++ iv.2.title ++ "](" ++ version_url ++ ")\n\n"
      let acc := iv.2.news.foldl
        (fun a n => a ++ "- [" ++ n.title ++ "](" ++ n.url ++ ")\n") acc
      acc ++ "\n")
    md0
  md1 ++ "---\n\n" ++
    "数据来源: 人民日报 - [http://paper.people.com.cn](http://paper.people.com.cn)  \n" ++
    "爬取时间: " ++ now ++ " (北京时间)\n"

/-! ## Article body extraction (`crawler/article_fetcher.py`) -/

/-- `ArticleContentFetcher.extract_article_content`.  The function parses
`html_content` into a soup; the parsed forest is the `doc` argument.  The
selector loop breaks on the first selector that returns an element (so the
assignments of failed later iterations never survive); when all fail, the
paragraph fallback fires iff the document holds more than 3 `<p>` elements,
wrapping the serialization of every one of them. -/
def extract_article_content (html_content : String) (doc : List Node) : Option String :=
  if html_content = "" then none
  else
    match article_selectors.findSome? (select_one doc) with
    | some article_div => some (renderNode article_div.1)
    | none =>
      let paragraphs := findAllTag doc "p"
      if 3 < paragraphs.length then
        some ("<div class=\"extracted-content\">\n" ++
          String.join (paragraphs.map (fun p => renderNode p.1 ++ "\n")) ++ "</div>")
      else none

/-! ## Article normalizer (`crawler/article_parser.py`) -/

/-- The dictionary `ArticleParser.parse_article` returns. -/
structure ParsedArticle where
  title : String
  author : String
  date : String
  version : String
  content : String
  original_url : String
deriving Repr, DecidableEq

/-- The title selector loop: `title_element` is overwritten by every
iteration and the loop breaks only when the found element has non-empty
stripped text, so when no selector yields such text the result is whatever
the LAST selector returned. -/
def titleLoop (doc : List Node) :
    List Sel → Option (Node × List Node) → Option (Node × List Node)
  | [], last => last
  | s :: rest, _ =>
    match select_one doc s with
    | some e => if strippedText e.1 ≠ "" then some e else titleLoop doc rest (some e)
    | none => titleLoop doc rest none

/-- The author selector loop: `author` is only assigned on a non-empty-text
match, so failed iterations leave it empty. -/
def authorLoop (doc : List Node) : List Sel → String
  | [] => ""
  | s :: rest =>
    match select_one doc s with
    | some e => if strippedText e.1 ≠ "" then strippedText e.1 else authorLoop doc rest
    | none => authorLoop doc rest

/-- First non-empty stripped text among selected elements (the
`for element in elements: if text: break` loops). -/
def firstNonEmptyText (es : List (Node × List Node)) : String :=
  match es.find? (fun e => strippedText e.1 ≠ "") with
  | some e => strippedText e.1
  | none => ""

/-- The content selector loop of `parse_article`: break on the first
selector whose element has non-empty stripped text, keeping `str(element)`. -/
def contentLoop (doc : List Node) : List Sel → String
  | [] => ""
  | s :: rest =>
    match select_one doc s with
    | some e => if strippedText e.1 ≠ "" then renderNode e.1 else contentLoop doc rest
    | none => contentLoop doc rest

/-- The paragraph filter of `parse_article`'s fallback: the `<p>` elements
with non-empty stripped text and no header/footer `div` ancestor. -/
def textBearingParagraphs (doc : List Node) : List (Node × List Node) :=
  (findAllTag doc "p").filter
    (fun p => strippedText p.1 ≠ "" && !hasHeaderFooterParent p.2)

/-- The paragraph fallback of `parse_article`: whenever the document holds
at least one `<p>`, wrap the serializations of the text-bearing paragraphs
that sit under no header/footer `div`. -/
def parseArticleContentFallback (doc : List Node) : String :=
  if (findAllTag doc "p").isEmpty then ""
  else
    "<div class=\"article-content\">" ++
      String.join ((textBearingParagraphs doc).map (fun p => renderNode p.1)) ++
      "</div>"

/-- `ArticleParser.parse_article`.  `html_content` is the raw HTML (used by
the regex extractions); `doc` is its parse. -/
def parse_article (html_content : String) (doc : List Node) : Option ParsedArticle :=
  if html_content = "" then none
  else
    let title :=
      match titleLoop doc title_selectors none with
      | some e => strippedText e.1
      | none => "无标题"
    let author := authorLoop doc author_selectors
    let author :=
      if author = "" then
        match findMetaAuthor doc with
        | some m =>
          match attrGet m "content" with
          | some c => if c ≠ "" then c else author
          | none => author
        | none => author
      else author
    let date := firstNonEmptyText (selectAll doc newstimeSel)
    let date :=
      if date = "" then
        match re_search_date_url html_content with
        | some (year_month, day) =>
          pySlice year_month 0 4 ++ "年" ++ pySlice year_month 4 6 ++ "月" ++ day ++ "日"
        | none => ""
      else date
    let version := firstNonEmptyText (selectAll doc banSel)
    let version :=
      if version = "" then
        let version_elements := selectAll doc dateBoxPSel
        match version_elements with
        | [] => ""
        | e :: _ =>
          let version_text := strippedText e.1
          if pyContains "版：".data version_text.data then version_text else ""
      else version
    let content := contentLoop doc content_selectors
    let content := if content = "" then parseArticleContentFallback doc else content
    let original_url := (re_search_orig_url html_content).getD ""
    some ⟨title, author, date, version, content, original_url⟩

/-! ## Article renderers (`converter/article_formatter.py`) -/

/-- The article-information dictionary `ArticleFormatter` works on.  The
Python `content` entry is an HTML string that `generate_markdown_article`
re-parses with BeautifulSoup; it is carried here in parsed form (the node
forest), which `generate_json_metadata` never reads. -/
structure ArticleInfo where
  title : String
  author : String
  date : String
  version : String
  version_number : String
  article_number : String
  content : List Node
  original_url : String
deriving Repr

/-- Lowercase hexadecimal digit. -/
def hexChar (n : Nat) : Char :=
  if n < 10 then Char.ofNat (48 + n) else Char.ofNat (87 + n)

/-- `json.dumps` escaping of one character with `ensure_ascii=False`. -/
def jsonEscChar (c : Char) : String :=
  if c = '"' then "\\\""
  else if c = '\\' then "\\\\"
  else if c = '\n' then "\\n"
  else if c = '\t' then "\\t"
  else if c = '\r' then "\\r"
  else if c.val = 8 then "\\b"
  else if c.val = 12 then "\\f"
  else if c.val < 32 then "\\u00" ++ String.mk [hexChar (c.toNat / 16), hexChar (c.toNat % 16)]
  else String.singleton c

/-- A `json.dumps` string literal (`ensure_ascii=False`). -/
def jsonStr (s : String) : String :=
  "\"" ++ String.join (s.data.map jsonEscChar) ++ "\""

/-- `ArticleFormatter.generate_json_metadata`: `json.dumps(metadata,
ensure_ascii=False, indent=2)` over the seven metadata entries plus the
processing timestamp, in insertion order; `"{}"` for a missing record.  The
`content` entry of the record is not among them. -/
def generate_json_metadata (article_info : Option ArticleInfo) (processed_time : String) :
    String :=
  match article_info with
  | none => "\x7b\x7d"
  | some info =>
    "\x7b\n  \"title\": " ++ jsonStr info.title ++
      ",\n  \"author\": " ++ jsonStr info.author ++
      ",\n  \"date\": " ++ jsonStr info.date ++
      ",\n  \"version\": " ++ jsonStr info.version ++
      ",\n  \"version_number\": " ++ jsonStr info.version_number ++
      ",\n  \"article_number\": " ++ jsonStr info.article_number ++
      ",\n  \"original_url\": " ++ jsonStr info.original_url ++
      ",\n  \"processed_time\": " ++ jsonStr processed_time ++
      "\n\x7d"

/-- The paragraph texts `generate_markdown_article` extracts from the
content: stripped text of every `<p>` descendant, empty ones dropped. -/
def mdParagraphs (content : List Node) : List String :=
  ((findAllTag content "p").map (fun p => strippedText p.1)).filter (fun t => t ≠ "")

/-- `ArticleFormatter.generate_markdown_article`, timestamp passed as
`now`; the empty string for a missing record. -/
def generate_markdown_article (article_info : Option ArticleInfo) (now : String) : String :=
  match article_info with
  | none => ""
  | some info =>
    let frontmatter :=
      "---\n" ++
        "title: " ++ info.title ++ "\n" ++
        "date: " ++ info.date ++ "\n" ++
        "author: " ++ info.author ++ "\n" ++
        "version: " ++ info.version ++ "\n" ++
        "source: 人民日报\n" ++
        "original_url: " ++ info.original_url ++ "\n" ++
        "---\n\n"
    let md := frontmatter ++ "# " ++ info.title ++ "\n\n"
    let md := md ++ "**作者**: " ++ info.author ++ "  \n"
    let md := md ++ "**日期**: " ++ info.date ++ "  \n"
    let md := md ++ "**版面**: " ++ info.version ++ "  \n\n"
    let md := (mdParagraphs info.content).foldl (fun acc p => acc ++ p ++ "\n\n") md
    let md := md ++ "---\n\n"
    let md := md ++ "*来源: [人民日报](" ++ info.original_url ++ ")*  \n"
    md ++ "*处理时间: " ++ now ++ " (北京时间)*\n"

/-! ## Shared lemmas -/

theorem strExt (a b : String) (h : a.data = b.data) : a = b := by
  cases a
  cases b
  exact congrArg String.mk h

theorem foldl_append_id (l : List String) :
    ∀ acc : String, l.foldl (fun a x => a ++ x) acc = acc ++ String.join l := by
  induction l with
  | nil =>
    intro acc
    apply strExt
    simp [String.join, String.data_append]
  | cons a l ih =>
    intro acc
    show l.foldl (fun a x => a ++ x) (acc ++ a) = _
    rw [ih (acc ++ a)]
    have hj : String.join (a :: l) = a ++ String.join l := by
      show (a :: l).foldl (fun a x => a ++ x) "" = _
      show l.foldl (fun a x => a ++ x) ("" ++ a) = _
      rw [ih ("" ++ a)]
      apply strExt
      simp [String.data_append]
    rw [hj, String.append_assoc]

theorem foldl_append_str (f : α → String) (l : List α) (acc : String) :
    l.foldl (fun a x => a ++ f x) acc = acc ++ String.join (l.map f) := by
  induction l generalizing acc with
  | nil =>
    apply strExt
    simp [String.join, String.data_append]
  | cons a l ih =>
    show l.foldl (fun a x => a ++ f x) (acc ++ f a) = _
    rw [ih (acc ++ f a)]
    have hj : String.join (f a :: l.map f) = f a ++ String.join (l.map f) := by
      show (f a :: l.map f).foldl (fun a x => a ++ x) "" = _
      show (l.map f).foldl (fun a x => a ++ x) ("" ++ f a) = _
      rw [foldl_append_id]
      apply strExt
      simp [String.data_append]
    simp only [List.map_cons, hj, String.append_assoc]

theorem str_append_cancel_left (P a b : String) (h : P ++ a = P ++ b) : a = b := by
  apply strExt
  have hd := congrArg String.data h
  simp only [String.data_append] at hd
  exact List.append_cancel_left hd

theorem isSuf_append (P q : String) : isSuf q.data (P ++ q).data = true := by
  simp only [isSuf, String.data_append, Bool.and_eq_true, decide_eq_true_eq]
  constructor
  · rw [List.length_append, Nat.add_sub_cancel, List.drop_left]
  · simp [List.length_append]

/-! ## C10: file-content extraction is total on readable files -/

/-- C10: `FileProcessor.extract_content` returns `None` exactly when the
path is empty/missing or reading fails (`readFile` returns `none`); for
every readable file it succeeds, and when the content does not begin with
`---`, or begins with `---` but has no closing `---` from index 3 on, it
returns empty metadata together with the entire file content as the body —
malformed frontmatter never causes an error. -/
theorem C10_extract_content_total_on_readable
    (readFile : String → Option String) (path : String) :
    ((extract_content readFile path).isNone = true ↔ (path = "" ∨ readFile path = none)) ∧
    (∀ c, readFile path = some c → path ≠ "" →
      (isPre ['-', '-', '-'] c.data = false ∨ pyFindFrom ['-', '-', '-'] c.data 3 = none) →
      extract_content readFile path = some ⟨path, pyBasename path, [], c⟩) := by
  constructor
  · unfold extract_content
    by_cases hp : path = ""
    · simp [hp]
    · simp only [hp, if_neg, ite_false]
      cases hrf : readFile path with
      | none => simp
      | some c =>
        simp only [Option.some.injEq]
        by_cases hpre : isPre ['-', '-', '-'] c.data
        · simp only [hpre, ite_true]
          cases hfind : pyFindFrom ['-', '-', '-'] c.data 3 <;> simp
        · simp [hpre]
  · intro c hc hp hmal
    unfold extract_content
    rw [if_neg hp, hc]
    rcases hmal with h | h
    · simp [h]
    · by_cases hpre : isPre ['-', '-', '-'] c.data
      · simp [hpre, h]
      · simp [hpre]

/-! ## C9: discovered paths always have the strict summary-input shape -/

theorem pyPathJoin_inj (dir a b : String) (h : pyPathJoin dir a = pyPathJoin dir b) :
    a = b := by
  unfold pyPathJoin at h
  split at h
  · exact h
  · split at h
    · exact str_append_cancel_left dir a b h
    · exact str_append_cancel_left (dir ++ "/") a b (by
        simpa [String.append_assoc] using h)

theorem mem_find_files_by_pattern
    (output_dir : String) (listing : List String) (isFile : String → Bool)
    (date : String) (f : String)
    (hf : f ∈ find_files_by_pattern output_dir listing isFile date) :
    ∃ n, isShapePattern n = true ∧ f = pyPathJoin output_dir n := by
  unfold find_files_by_pattern at hf
  simp only [List.mem_map, List.mem_filter] at hf
  obtain ⟨n, ⟨_, hcond⟩, rfl⟩ := hf
  refine ⟨n, ?_, rfl⟩
  simp only [Bool.and_eq_true] at hcond
  exact hcond.1.2

/-- C9: every path `FileFinder.find_matching_files` returns is the directory
join of a listed name matching `^\d{8}-\d{4}\.md$` exactly; the join of any
name not of that shape — the edition index `{YYYYMMDD}.md`, a prior
`{base}-ai-summarize.md` summary — is never among the results. -/
theorem C9_results_have_summary_shape
    (output_dir : String) (listing : List String) (isFile : String → Bool)
    (today yesterday : String) :
    (∀ f ∈ find_matching_files output_dir listing isFile today yesterday,
       ∃ n, isShapePattern n = true ∧ f = pyPathJoin output_dir n) ∧
    (∀ name, isShapePattern name = false →
       pyPathJoin output_dir name ∉
         find_matching_files output_dir listing isFile today yesterday) := by
  have part1 : ∀ f ∈ find_matching_files output_dir listing isFile today yesterday,
      ∃ n, isShapePattern n = true ∧ f = pyPathJoin output_dir n := by
    intro f hf
    simp only [find_matching_files] at hf
    split at hf
    · exact mem_find_files_by_pattern _ _ _ _ _ hf
    · split at hf
      · exact mem_find_files_by_pattern _ _ _ _ _ hf
      · exact absurd hf (List.not_mem_nil _)
  refine ⟨part1, ?_⟩
  intro name hname hmem
  obtain ⟨n, hn, heq⟩ := part1 _ hmem
  rw [pyPathJoin_inj output_dir name n heq] at hname
  rw [hname] at hn
  exact Bool.false_ne_true hn

/-- Witness for C10 at a concrete filesystem: a readable file whose content
opens with `---` but never closes it is returned whole with empty
metadata. -/
theorem C10_witness :
    extract_content (fun p => if p = "f.md" then some "---no closing" else none) "f.md" =
      some ⟨"f.md", "f.md", [], "---no closing"⟩ :=
  (C10_extract_content_total_on_readable
      (fun p => if p = "f.md" then some "---no closing" else none) "f.md").2
    "---no closing" (by decide) (by decide) (Or.inr (by decide))

/-- Witness for C9 at a concrete listing: the edition index `20250412.md`
and the prior summary `20250412-0101-ai-summarize.md` are excluded. -/
theorem C9_witness :
    pyPathJoin "out" "20250412.md" ∉
      find_matching_files "out"
        ["20250412-0101.md", "20250412.md", "20250412-0101-ai-summarize.md"]
        (fun _ => true) "20250412" "20250411" ∧
    pyPathJoin "out" "20250412-0101-ai-summarize.md" ∉
      find_matching_files "out"
        ["20250412-0101.md", "20250412.md", "20250412-0101-ai-summarize.md"]
        (fun _ => true) "20250412" "20250411" :=
  ⟨(C9_results_have_summary_shape "out" _ _ "20250412" "20250411").2
      "20250412.md" (by decide),
   (C9_results_have_summary_shape "out" _ _ "20250412" "20250411").2
      "20250412-0101-ai-summarize.md" (by decide)⟩

/-! ## C4: file discovery scans today, then exactly yesterday -/

/-- The claim-side filename shape `{date}-dddd.md` for an 8-character date:
the date, a hyphen, four digits, the `.md` extension, nothing else. -/
def matchesSpecShape (date name : String) : Bool :=
  isPre (date ++ "-").data name.data &&
    ((name.data.drop 9).take 4).all Char.isDigit &&
    decide (name.data.drop 13 = ['.', 'm', 'd']) &&
    decide (name.data.length = 16)

theorem data_append_dash (date : String) : (date ++ "-").data = date.data ++ ['-'] := by
  rw [String.data_append]

/-- For an 8-digit date, the conjunction of the two regex tests the finder
applies (`^{date}-.*\.md$` and `^\d{8}-\d{4}\.md$`) is exactly the
`{date}-dddd.md` shape. -/
theorem pattern_conj_eq (date n : String) (h8 : date.data.length = 8)
    (hd : date.data.all Char.isDigit = true) :
    (matchesDatePattern date n && isShapePattern n) = matchesSpecShape date n := by
  have hlen9 : (date.data ++ ['-']).length = 9 := by
    simp [h8]
  have hq3 : (['.', 'm', 'd'] : List Char).length = 3 := rfl
  by_cases hp : n.data.take 9 = date.data ++ ['-']
  · have hsplit : n.data = date.data ++ '-' :: n.data.drop 9 := by
      conv_lhs => rw [← List.take_append_drop 9 n.data]
      rw [hp]
      simp
    set M := n.data.drop 9 with hM
    have h13 : (date.data ++ '-' :: M).drop 13 = M.drop 4 := by
      rw [show (13 : Nat) = date.data.length + 5 from by omega,
        List.drop_append_eq_append_drop]
      simp [h8]
    have h9 : (date.data ++ '-' :: M).drop 9 = M := by
      rw [show (9 : Nat) = date.data.length + 1 from by omega,
        List.drop_append_eq_append_drop]
      simp [h8]
    have h8d : (date.data ++ '-' :: M).drop 8 = '-' :: M := by
      rw [show (8 : Nat) = date.data.length from by omega, List.drop_left]
    have ht8 : (date.data ++ '-' :: M).take 8 = date.data := by
      rw [show (8 : Nat) = date.data.length from by omega, List.take_left]
    have ht9 : (date.data ++ '-' :: M).take 9 = date.data ++ ['-'] := by
      rw [show (9 : Nat) = date.data.length + 1 from by omega,
        List.take_append_eq_append_take]
      simp [h8]
    have hlen : (date.data ++ '-' :: M).length = 9 + M.length := by
      simp [h8]
      omega
    rw [Bool.eq_iff_iff]
    simp only [matchesDatePattern, isShapePattern, matchesSpecShape, isPre, isSuf,
      data_append_dash, hlen9, hq3, Bool.and_eq_true, decide_eq_true_eq,
      List.all_eq_true]
    rw [hsplit]
    simp only [ht9, ht8, h8d, h9, h13, hlen, List.take_succ_cons, List.take_zero]
    constructor
    · intro h
      and_intros <;> tauto
    · intro h
      have hL16 : 9 + M.length = 16 := by tauto
      have hMlen : M.length = 7 := by omega
      and_intros <;>
        first
          | tauto
          | omega
          | (rw [hMlen, show (9 : Nat) + 7 - 3 = 13 from by norm_num, h13]; tauto)
          | (intro c hc; exact List.all_eq_true.mp hd c hc)
  · have hp2 : isPre (date.data ++ ['-']) n.data = false := by
      simp only [isPre, hlen9, decide_eq_false_iff_not]
      exact hp
    simp [matchesDatePattern, matchesSpecShape, data_append_dash, hp2]

/-- C4: with 8-digit today/yesterday dates, `FileFinder.find_matching_files`
returns exactly the joined paths of the listed files of shape
`{today}-dddd.md` when any exist; otherwise it rescans exactly once with
yesterday's date and returns the `{yesterday}-dddd.md` files; otherwise the
empty list.  No date other than these two is consulted. -/
theorem C4_find_matching_files_today_then_yesterday
    (output_dir : String) (listing : List String) (isFile : String → Bool)
    (today yesterday : String)
    (ht8 : today.data.length = 8) (htd : today.data.all Char.isDigit = true)
    (hy8 : yesterday.data.length = 8) (hyd : yesterday.data.all Char.isDigit = true) :
    find_matching_files output_dir listing isFile today yesterday =
      (let todaySet := (listing.filter (fun n =>
          matchesSpecShape today n && isFile (pyPathJoin output_dir n))).map
            (pyPathJoin output_dir)
       let yesterdaySet := (listing.filter (fun n =>
          matchesSpecShape yesterday n && isFile (pyPathJoin output_dir n))).map
            (pyPathJoin output_dir)
       if todaySet ≠ [] then todaySet else yesterdaySet) := by
  have key : ∀ date : String, date.data.length = 8 → date.data.all Char.isDigit = true →
      find_files_by_pattern output_dir listing isFile date =
        (listing.filter (fun n =>
            matchesSpecShape date n && isFile (pyPathJoin output_dir n))).map
          (pyPathJoin output_dir) := by
    intro date h8 hd
    unfold find_files_by_pattern
    congr 1
    apply List.filter_congr
    intro n _
    rw [pattern_conj_eq date n h8 hd]
  simp only [find_matching_files, key today ht8 htd, key yesterday hy8 hyd]
  split
  · rfl
  · split
    · rfl
    · next h =>
      simp only [ne_eq, not_not] at h
      exact h.symm

/-- Witness for C4 at the spec's own scenario: nothing matches today,
one file matches yesterday, so yesterday's set is selected. -/
theorem C4_witness :
    find_matching_files "out" ["20250411-0202.md", "20250412.md"] (fun _ => true)
      "20250412" "20250411" = ["out/20250411-0202.md"] := by
  rw [C4_find_matching_files_today_then_yesterday "out" _ _ "20250412" "20250411"
    (by decide) (by decide) (by decide) (by decide)]
  decide

/-! ## C5: token estimation -/

set_option maxRecDepth 40000

theorem dropWhile_eq_self_of_none (p : Char → Bool) (m : List Char)
    (hm : ∀ c ∈ m, p c = false) : m.dropWhile p = m := by
  cases m with
  | nil => rfl
  | cons a t =>
    rw [List.dropWhile_cons, hm a (List.mem_cons_self a t)]
    simp

theorem pyStripList_of_no_space (l : List Char)
    (h : ∀ c ∈ l, isPySpace c = false) : pyStripList l = l := by
  unfold pyStripList
  rw [dropWhile_eq_self_of_none _ l h,
    dropWhile_eq_self_of_none _ l.reverse (fun c hc => h c (List.mem_reverse.mp hc)),
    List.reverse_reverse]

theorem is_chinese_not_space (c : Char) (h : is_chinese c = true) :
    isPySpace c = false := by
  by_contra hs
  rw [Bool.not_eq_false] at hs
  simp only [is_chinese, Bool.or_eq_true, Bool.and_eq_true, decide_eq_true_eq] at h
  simp only [isPySpace, Bool.or_eq_true, Bool.and_eq_true, decide_eq_true_eq] at hs
  omega

theorem ascii_not_chinese (c : Char) (h : c.toNat < 128) : is_chinese c = false := by
  by_contra hb
  rw [Bool.not_eq_false] at hb
  simp only [is_chinese, Bool.or_eq_true, Bool.and_eq_true, decide_eq_true_eq] at hb
  omega

theorem estimate_foldl (l : List PyMessage) (acc : Nat) :
    l.foldl (fun acc m => acc + (count_tokens m.content + 4)) acc =
      acc + (l.map (fun m => count_tokens m.content)).sum + 4 * l.length := by
  induction l generalizing acc with
  | nil => simp
  | cons m l ih =>
    show l.foldl _ (acc + (count_tokens m.content + 4)) = _
    rw [ih]
    simp only [List.map_cons, List.sum_cons, List.length_cons]
    omega

/-- C5 (amended): the token estimator counts the CJK characters of the
stripped text 1:1 and the remaining characters at a quarter token, rounding
half up; the per-request estimate adds 4 tokens per message plus a 3-token
constant once (for a non-empty message list).  A string of 100 CJK
characters estimates to exactly 100; a 400-character ASCII string none of
whose characters is whitespace estimates to exactly 100.  (The whitespace
restriction is forced: stripping happens first, so e.g. 400 spaces estimate
to 0 — see the counterexample.) -/
theorem C5_token_estimator :
    (∀ text : String, text ≠ "" →
        count_tokens text =
          ((pyStripList text.data).filter is_chinese).length +
            ((pyStripList text.data).length -
              ((pyStripList text.data).filter is_chinese).length + 2) / 4) ∧
    (∀ messages : List PyMessage, messages ≠ [] →
        estimate_input_tokens messages =
          (messages.map (fun m => count_tokens m.content)).sum + 4 * messages.length + 3) ∧
    (∀ text : String, text.data.length = 100 →
        (∀ c ∈ text.data, is_chinese c = true) → count_tokens text = 100) ∧
    (∀ text : String, text.data.length = 400 →
        (∀ c ∈ text.data, c.toNat < 128 ∧ isPySpace c = false) →
        count_tokens text = 100) := by
  have heval : ∀ text : String, text ≠ "" →
      count_tokens text =
        ((pyStripList text.data).filter is_chinese).length +
          ((pyStripList text.data).length -
            ((pyStripList text.data).filter is_chinese).length + 2) / 4 := by
    intro text h
    rw [count_tokens_eval]
    simp only [if_neg h]
  refine ⟨heval, ?_, ?_, ?_⟩
  · intro messages h
    unfold estimate_input_tokens
    rw [if_neg h, estimate_foldl]
    omega
  · intro text hlen hcjk
    have hne : text ≠ "" := by
      intro he
      rw [he] at hlen
      exact absurd hlen (by decide)
    rw [heval text hne,
      pyStripList_of_no_space _ (fun c hc => is_chinese_not_space c (hcjk c hc)),
      List.filter_eq_self.mpr hcjk, hlen]
  · intro text hlen hascii
    have hne : text ≠ "" := by
      intro he
      rw [he] at hlen
      exact absurd hlen (by decide)
    have hstrip : pyStripList text.data = text.data :=
      pyStripList_of_no_space _ (fun c hc => (hascii c hc).2)
    have hfilter : text.data.filter is_chinese = [] := by
      rw [List.filter_eq_nil_iff]
      intro c hc
      rw [ascii_not_chinese c (hascii c hc).1]
      exact Bool.false_ne_true
    rw [heval text hne, hstrip, hfilter, hlen]
    decide

/-- Witness for C5: 100 CJK characters give exactly 100 tokens, 400
non-whitespace ASCII characters give exactly 100 tokens, and a one-message
request over an 8-character ASCII content estimates to 2 + 4 + 3 = 9. -/
theorem C5_witness :
    count_tokens (String.mk (List.replicate 100 '中')) = 100 ∧
    count_tokens (String.mk (List.replicate 400 'a')) = 100 ∧
    estimate_input_tokens [⟨"user", "abcdefgh"⟩] = 9 := by
  refine ⟨?_, ?_, ?_⟩
  · exact C5_token_estimator.2.2.1 _ (by simp)
      (fun c hc => by rw [List.eq_of_mem_replicate hc]; decide)
  · exact C5_token_estimator.2.2.2 _ (by simp)
      (fun c hc => by rw [List.eq_of_mem_replicate hc]; exact ⟨by decide, by decide⟩)
  · rw [C5_token_estimator.2.1 _ (by decide)]
    simp only [List.map_cons, List.map_nil, List.sum_cons, List.sum_nil, List.length_cons,
      List.length_nil, count_tokens_eval]
    decide

/-- Counterexample for C5 as frozen: a 400-character ASCII string made of
spaces strips to nothing and estimates to 0 tokens, not 100 ± 1. -/
theorem C5_counterexample :
    (String.mk (List.replicate 400 ' ')).data.length = 400 ∧
    (∀ c ∈ (String.mk (List.replicate 400 ' ')).data, c.toNat < 128) ∧
    count_tokens (String.mk (List.replicate 400 ' ')) = 0 ∧
    ¬(99 ≤ count_tokens (String.mk (List.replicate 400 ' '))) := by
  refine ⟨by simp, ?_, ?_, ?_⟩
  · intro c hc
    rw [List.eq_of_mem_replicate hc]
    decide
  · rw [count_tokens_eval]
    decide
  · rw [count_tokens_eval]
    decide

/-! ## C3: mock-summary time field -/

/-- The placeholder-summary template (spec side): the 时间 slot, the fixed
地点/人物 lines, the 事件 slot, and the fixed closing lines. -/
def mockTemplate (time_str title : String) : String :=
  "时间：" ++ time_str ++ "\n地点：模拟地点\n人物：模拟人物\n事件：" ++ title ++
    "\n起因：这是一个模拟总结，由于未提供API密钥，系统生成了这个示例。" ++
    "\n结果：为了完整展示功能，系统提供了这个模板化的总结。实际使用时，请提供有效的DeepSeek API密钥。"

/-- C3 (amended): the mock summary's 时间 field is the first
`\d{4}年\d{1,2}月\d{1,2}日` match of the body when one exists; when the body
has no such substring it is the metadata `date` entry when present, and
today's date only otherwise.  In particular a body whose first match is
`2025年4月10日` puts that string in the field verbatim. -/
theorem C3_mock_summary_time_field :
    (∀ (cd : ContentData) (today : String),
      generate_mock_summary cd today =
        mockTemplate ((cn_date_first cd.content).getD (dictGetD cd.metadata "date" today))
          (dictGetD cd.metadata "title" "未知标题")) ∧
    (∀ (cd : ContentData) (today : String),
      cn_date_first cd.content = some "2025年4月10日" →
      generate_mock_summary cd today =
        mockTemplate "2025年4月10日" (dictGetD cd.metadata "title" "未知标题")) ∧
    (∀ (cd : ContentData) (today : String),
      cn_date_first cd.content = none → dictGet cd.metadata "date" = none →
      generate_mock_summary cd today =
        mockTemplate today (dictGetD cd.metadata "title" "未知标题")) := by
  have hmain : ∀ (cd : ContentData) (today : String),
      generate_mock_summary cd today =
        mockTemplate ((cn_date_first cd.content).getD (dictGetD cd.metadata "date" today))
          (dictGetD cd.metadata "title" "未知标题") := by
    intro cd today
    rfl
  refine ⟨hmain, ?_, ?_⟩
  · intro cd today h
    rw [hmain, h]
    rfl
  · intro cd today h1 h2
    rw [hmain, h1]
    simp only [Option.getD_none, dictGetD, h2]

/-- Witness for C3: a body whose first date-shaped substring is
`2025年4月10日` gets it verbatim, and a dateless body with no metadata date
falls back to today's date. -/
theorem C3_witness :
    generate_mock_summary ⟨"a.md", "a.md", [], "于2025年4月10日举行"⟩ "X" =
      mockTemplate "2025年4月10日" "未知标题" ∧
    generate_mock_summary ⟨"b.md", "b.md", [], "no dates here"⟩ "2025-10-12" =
      mockTemplate "2025-10-12" "未知标题" := by
  constructor
  · rw [C3_mock_summary_time_field.2.1 _ "X" (by decide)]
    decide
  · rw [C3_mock_summary_time_field.2.2 _ "2025-10-12" (by decide) (by decide)]
    decide

/-- Counterexample for C3 as frozen: (a) a dateless body whose metadata
carries a `date` entry puts that entry — not today's date — into the 时间
field; (b) a body merely containing `2025年4月10日` after an earlier date
gets the earlier date, not the contained one. -/
theorem C3_counterexample :
    (cn_date_first "hello" = none ∧
      generate_mock_summary ⟨"f.md", "f.md", [("date", "1999-01-01")], "hello"⟩
          "2025-10-12" =
        mockTemplate "1999-01-01" "未知标题" ∧
      mockTemplate "1999-01-01" "未知标题" ≠ mockTemplate "2025-10-12" "未知标题") ∧
    (pyContains "2025年4月10日".data "2024年1月1日和2025年4月10日".data = true ∧
      generate_mock_summary ⟨"g.md", "g.md", [], "2024年1月1日和2025年4月10日"⟩
          "2025-10-12" =
        mockTemplate "2024年1月1日" "未知标题" ∧
      mockTemplate "2024年1月1日" "未知标题" ≠ mockTemplate "2025年4月10日" "未知标题") := by
  refine ⟨⟨by decide, by decide, by decide⟩, ⟨by decide, by decide, by decide⟩⟩

/-! ## C6: index renderers number sections by position -/

theorem str_append_nil (s : String) : s ++ "" = s := by
  apply strExt
  simp [String.data_append]

theorem str_join_cons (a : String) (l : List String) :
    String.join (a :: l) = a ++ String.join l := by
  show (a :: l).foldl (fun acc x => acc ++ x) "" = _
  show l.foldl (fun acc x => acc ++ x) ("" ++ a) = _
  rw [foldl_append_id]
  apply strExt
  simp [String.data_append]

/-- The Markdown heading-plus-bullets block of one section: the link URL is
built from the 1-based enumeration position `iv.1`, and one bullet is
emitted per `NewsItem`. -/
def mdSectionBlock (date_string : String) (iv : Nat × VersionData) : String :=
  "## [" ++ iv.2.title ++ "](" ++ sectionUrl date_string iv.1 ++ ")\n\n" ++
    String.join (iv.2.news.map (fun n => "- [" ++ n.title ++ "](" ++ n.url ++ ")\n")) ++ "\n"

/-- The HTML section block: heading link from the enumeration position, one
list item per `NewsItem`. -/
def htmlSectionBlock (date_string : String) (iv : Nat × VersionData) : String :=
  htmlVer1 ++ sectionUrl date_string iv.1 ++ htmlVer2 ++ iv.2.title ++ htmlVer3 ++
    String.join (iv.2.news.map (fun n => htmlItem1 ++ n.url ++ htmlItem2 ++ n.title ++ htmlItem3)) ++
    htmlClose

/-- The fixed part of the Markdown report before the section blocks. -/
def mdReportHeader (date_string : String) : String :=
  add_frontmatter
      [("title", "人民日报 - " ++ displayDate date_string), ("description", "全版面新闻汇总"),
       ("sidebar", "auto")] ++
    "\n# 人民日报 - " ++ displayDate date_string ++ "\n\n全版面新闻汇总\n\n"

/-- The fixed part of the Markdown report after the section blocks. -/
def mdReportFooter (now : String) : String :=
  "---\n\n" ++
    "数据来源: 人民日报 - [http://paper.people.com.cn](http://paper.people.com.cn)  \n" ++
    "爬取时间: " ++ now ++ " (北京时间)\n"

/-- The fixed part of the HTML report before the section blocks. -/
def htmlReportHeader (date_string : String) : String :=
  htmlHead1 ++ displayDate date_string ++ htmlHead2 ++ displayDate date_string ++ htmlHead3

theorem md_inner_fold (news : List NewsItem) (acc : String) :
    news.foldl (fun a n => a ++ "- [" ++ n.title ++ "](" ++ n.url ++ ")\n") acc =
      acc ++ String.join (news.map (fun n => "- [" ++ n.title ++ "](" ++ n.url ++ ")\n")) := by
  have hfun : (fun (a : String) (n : NewsItem) => a ++ "- [" ++ n.title ++ "](" ++ n.url ++ ")\n") =
      (fun (a : String) (n : NewsItem) => a ++ ("- [" ++ n.title ++ "](" ++ n.url ++ ")\n")) := by
    funext a n
    simp [String.append_assoc]
  rw [hfun]
  exact foldl_append_str _ news acc

theorem html_inner_fold (news : List NewsItem) (acc : String) :
    news.foldl (fun a n => a ++ htmlItem1 ++ n.url ++ htmlItem2 ++ n.title ++ htmlItem3) acc =
      acc ++ String.join (news.map (fun n => htmlItem1 ++ n.url ++ htmlItem2 ++ n.title ++ htmlItem3)) := by
  have hfun : (fun (a : String) (n : NewsItem) =>
        a ++ htmlItem1 ++ n.url ++ htmlItem2 ++ n.title ++ htmlItem3) =
      (fun (a : String) (n : NewsItem) =>
        a ++ (htmlItem1 ++ n.url ++ htmlItem2 ++ n.title ++ htmlItem3)) := by
    funext a n
    simp [String.append_assoc]
  rw [hfun]
  exact foldl_append_str _ news acc

theorem md_outer_fold (date_string : String) (l : List VersionData) :
    ∀ (k : Nat) (acc : String),
      (pyEnumFrom k l).foldl
        (fun acc iv =>
          let version_url := sectionUrl date_string iv.1
          let acc := acc ++ "## [" ++ iv.2.title ++ "](" ++ version_url ++ ")\n\n"
          let acc := iv.2.news.foldl
            (fun a n => a ++ "- [" ++ n.title ++ "](" ++ n.url ++ ")\n") acc
          acc ++ "\n") acc =
      acc ++ String.join ((pyEnumFrom k l).map (mdSectionBlock date_string)) := by
  induction l with
  | nil =>
    intro k acc
    simp only [pyEnumFrom, List.foldl_nil, List.map_nil]
    exact (str_append_nil acc).symm
  | cons v l ih =>
    intro k acc
    simp only [pyEnumFrom, List.foldl_cons, List.map_cons]
    rw [ih (k + 1), str_join_cons, md_inner_fold]
    apply strExt
    simp [mdSectionBlock, String.data_append, String.append_assoc]

theorem html_outer_fold (date_string : String) (l : List VersionData) :
    ∀ (k : Nat) (acc : String),
      (pyEnumFrom k l).foldl
        (fun acc iv =>
          let version_url := sectionUrl date_string iv.1
          let acc := acc ++ htmlVer1 ++ version_url ++ htmlVer2 ++ iv.2.title ++ htmlVer3
          let acc := iv.2.news.foldl
            (fun a n => a ++ htmlItem1 ++ n.url ++ htmlItem2 ++ n.title ++ htmlItem3) acc
          acc ++ htmlClose) acc =
      acc ++ String.join ((pyEnumFrom k l).map (htmlSectionBlock date_string)) := by
  induction l with
  | nil =>
    intro k acc
    simp only [pyEnumFrom, List.foldl_nil, List.map_nil]
    exact (str_append_nil acc).symm
  | cons v l ih =>
    intro k acc
    simp only [pyEnumFrom, List.foldl_cons, List.map_cons]
    rw [ih (k + 1), str_join_cons, html_inner_fold]
    apply strExt
    simp [htmlSectionBlock, String.data_append, String.append_assoc]

/-- C6: both index renderers decompose into a fixed header, one block per
section in input order, and a fixed footer; each block's heading links to
`…/node_{NN}.html` where `NN` is the 1-based enumeration position formatted
with `{:02d}` (and not the section's own `version_id`, on which the blocks
provably do not depend); each block carries one bullet/list item per
`NewsItem`. -/
theorem C6_index_renderers (versions_data : List VersionData) (date_string now : String) :
    generate_markdown_report versions_data date_string now =
      mdReportHeader date_string ++
        String.join ((pyEnumFrom 1 versions_data).map (mdSectionBlock date_string)) ++
        mdReportFooter now ∧
    generate_html_report versions_data date_string now =
      htmlReportHeader date_string ++
        String.join ((pyEnumFrom 1 versions_data).map (htmlSectionBlock date_string)) ++
        (htmlFoot1 ++ now ++ htmlFoot2) ∧
    (∀ i : Nat,
      isSuf ("node_" ++ pad2 i ++ ".html").data (sectionUrl date_string i).data = true) ∧
    (∀ (i m : Nat) (v : VersionData),
      mdSectionBlock date_string (i, { v with version_id := m }) =
          mdSectionBlock date_string (i, v) ∧
        htmlSectionBlock date_string (i, { v with version_id := m }) =
          htmlSectionBlock date_string (i, v)) := by
  refine ⟨?_, ?_, ?_, ?_⟩
  · unfold generate_markdown_report
    dsimp only
    rw [md_outer_fold]
    apply strExt
    simp [mdReportHeader, mdReportFooter, String.data_append, String.append_assoc]
  · unfold generate_html_report
    dsimp only
    rw [html_outer_fold]
    apply strExt
    simp [htmlReportHeader, String.data_append, String.append_assoc]
  · intro i
    have hdecomp : sectionUrl date_string i =
        ("http://paper.people.com.cn/rmrb/pc/layout/" ++ pySlice date_string 0 6 ++ "/" ++
          pySlice date_string 6 8 ++ "/") ++ ("node_" ++ pad2 i ++ ".html") := by
      unfold sectionUrl
      rw [show ("/node_" : String) = "/" ++ "node_" from by decide]
      apply strExt
      simp [String.data_append, String.append_assoc]
    rw [hdecomp]
    exact isSuf_append _ _
  · intro i m v
    exact ⟨rfl, rfl⟩

/-! ## C7: news-item extraction -/

/-- C7: when the news-list container is absent the extraction returns the
empty list; when it is present the result has one `NewsItem` per
href-bearing anchor below the container, in document order, with the
base-resolved URL and the `c(\d+)\.html` capture as id — and zero anchors
give the empty list.  An unmatched id pattern yields the empty string.  The
function is total, so no input makes it throw. -/
theorem C7_extract_news_items (doc : List Node) (base_url : String) :
    ((select_one doc newsListSel).isNone = true → extract_news_list doc base_url = []) ∧
    (∀ ul anc, select_one doc newsListSel = some (ul, anc) →
      (extract_news_list doc base_url).length = (findAnchorsHref ul).length ∧
      (∀ i : Nat,
        (extract_news_list doc base_url)[i]? =
          ((findAnchorsHref ul)[i]?).map (fun link =>
            { title := strippedText link,
              url := urljoin base_url ((attrGet link "href").getD ""),
              news_id := extract_news_id ((attrGet link "href").getD "") })) ∧
      ((findAnchorsHref ul).isEmpty = true → extract_news_list doc base_url = [])) ∧
    (∀ href : String, (re_search_news_id href).isNone = true → extract_news_id href = "") := by
  refine ⟨?_, ?_, ?_⟩
  · intro h
    unfold extract_news_list
    cases hso : select_one doc newsListSel with
    | none => rfl
    | some p =>
      rw [hso] at h
      simp at h
  · intro ul anc hso
    have hrw : extract_news_list doc base_url =
        (findAnchorsHref ul).map (fun link =>
          let href := (attrGet link "href").getD ""
          ⟨strippedText link, urljoin base_url href, extract_news_id href⟩) := by
      unfold extract_news_list
      rw [hso]
    refine ⟨by rw [hrw]; simp, ?_, ?_⟩
    · intro i
      rw [hrw, List.getElem?_map]
    · intro he
      rw [hrw, List.isEmpty_iff.mp he]
      rfl
  · intro href h
    unfold extract_news_id
    cases hr : re_search_news_id href with
    | none => rfl
    | some v =>
      rw [hr] at h
      simp at h

/-- Witness for C7: a document with no news-list container yields the empty
list (the spec's zero-anchors/no-container scenario). -/
theorem C7_witness :
    extract_news_list [Node.elem "p" [] [Node.text "x"]] "http://x/" = [] :=
  (C7_extract_news_items _ _).1 (by decide)

/-! ## C8: JSON omits the body, Markdown includes it -/

theorem str_join_append (a b : List String) :
    String.join (a ++ b) = String.join a ++ String.join b := by
  induction a with
  | nil =>
    apply strExt
    simp [String.join, String.data_append]
  | cons x a ih =>
    rw [List.cons_append, str_join_cons, str_join_cons, ih, String.append_assoc]

theorem pyContains_of_parts (sub s a b : List Char) (h : s = a ++ (sub ++ b)) :
    pyContains sub s = true := by
  unfold pyContains pyFindFrom
  have hmem : a.length ∈ List.range (s.length + 1) := by
    rw [List.mem_range, h]
    simp [List.length_append]
    omega
  have hpred : (decide (0 ≤ a.length) && subAt sub s a.length) = true := by
    simp [subAt, h, List.drop_left, List.take_left]
  rcases hfind : List.find? (fun i => decide (0 ≤ i) && subAt sub s i) (List.range (s.length + 1)) with _ | v
  · exfalso
    have := List.find?_eq_none.mp hfind a.length hmem
    rw [hpred] at this
    exact this rfl
  · rfl

/-- The fixed part of the Markdown article before the paragraph section. -/
def mdArticleHeader (info : ArticleInfo) : String :=
  "---\n" ++ "title: " ++ info.title ++ "\n" ++ "date: " ++ info.date ++ "\n" ++
    "author: " ++ info.author ++ "\n" ++ "version: " ++ info.version ++ "\n" ++
    "source: 人民日报\n" ++ "original_url: " ++ info.original_url ++ "\n" ++ "---\n\n" ++
    "# " ++ info.title ++ "\n\n" ++ "**作者**: " ++ info.author ++ "  \n" ++
    "**日期**: " ++ info.date ++ "  \n" ++ "**版面**: " ++ info.version ++ "  \n\n"

/-- The fixed part of the Markdown article after the paragraph section. -/
def mdArticleFooter (info : ArticleInfo) (now : String) : String :=
  "---\n\n" ++ "*来源: [人民日报](" ++ info.original_url ++ ")*  \n" ++
    "*处理时间: " ++ now ++ " (北京时间)*\n"

theorem generate_markdown_article_decomp (info : ArticleInfo) (now : String) :
    generate_markdown_article (some info) now =
      mdArticleHeader info ++
        String.join ((mdParagraphs info.content).map (fun p => p ++ "\n\n")) ++
        mdArticleFooter info now := by
  unfold generate_markdown_article
  dsimp only
  have hfun : (fun (acc p : String) => acc ++ p ++ "\n\n") =
      (fun (acc p : String) => acc ++ (p ++ "\n\n")) := by
    funext acc p
    simp [String.append_assoc]
  rw [hfun, foldl_append_str]
  apply strExt
  simp [mdArticleHeader, mdArticleFooter, String.data_append, String.append_assoc]

/-- Two records differing only in their body, for the no-round-trip part of
C8. -/
def C8infoA : ArticleInfo :=
  ⟨"T", "A", "D", "V", "1", "2", [Node.elem "p" [] [Node.text "AAA"]], "u"⟩

/-- See `C8infoA`. -/
def C8infoB : ArticleInfo :=
  ⟨"T", "A", "D", "V", "1", "2", [Node.elem "p" [] [Node.text "BBB"]], "u"⟩

/-- C8: the JSON rendering reads only the metadata fields — records
differing only in `content` render to the same JSON — while the Markdown
rendering contains every text-bearing paragraph of the body (paragraph text
followed by a blank line); hence two records with different bodies share a
JSON rendering but not a Markdown one, so JSON cannot round-trip the body. -/
theorem C8_json_excludes_body (info : ArticleInfo) (now processed_time : String) :
    (∀ c1 c2 : List Node,
      generate_json_metadata (some { info with content := c1 }) processed_time =
        generate_json_metadata (some { info with content := c2 }) processed_time) ∧
    (∀ t, t ∈ mdParagraphs info.content →
      pyContains (t ++ "\n\n").data (generate_markdown_article (some info) now).data = true) ∧
    (∃ i1 i2 : ArticleInfo,
      mdParagraphs i1.content ≠ mdParagraphs i2.content ∧
      generate_json_metadata (some i1) processed_time =
        generate_json_metadata (some i2) processed_time ∧
      generate_markdown_article (some i1) now ≠ generate_markdown_article (some i2) now) := by
  refine ⟨fun c1 c2 => rfl, ?_, ?_⟩
  · intro t ht
    obtain ⟨l1, l2, hl⟩ := List.append_of_mem ht
    apply pyContains_of_parts _ _
      ((mdArticleHeader info).data ++ (String.join (l1.map (fun p => p ++ "\n\n"))).data)
      ((String.join (l2.map (fun p => p ++ "\n\n"))).data ++ (mdArticleFooter info now).data)
    rw [generate_markdown_article_decomp, hl, List.map_append, List.map_cons,
      str_join_append, str_join_cons]
    simp [String.data_append, List.append_assoc]
  · refine ⟨C8infoA, C8infoB, by decide, rfl, ?_⟩
    intro h
    rw [generate_markdown_article_decomp, generate_markdown_article_decomp,
      show mdArticleHeader C8infoB = mdArticleHeader C8infoA from rfl,
      show mdArticleFooter C8infoB now = mdArticleFooter C8infoA now from rfl] at h
    have hd := congrArg String.data h
    simp only [String.data_append, List.append_assoc] at hd
    have h1 := List.append_cancel_left hd
    have h2 := List.append_cancel_right h1
    revert h2
    decide

/-- Witness for C8: the paragraph `AAA` of a concrete record appears,
followed by a blank line, in that record's Markdown rendering. -/
theorem C8_witness :
    pyContains ("AAA" ++ "\n\n").data
      (generate_markdown_article (some C8infoA) "NOW").data = true :=
  (C8_json_excludes_body C8infoA "NOW" "PT").2.1 "AAA" (by decide)

/-! ## C1: the two paragraph fallbacks -/

/-- C1 (amended): when every selector of
`ArticleContentFetcher.extract_article_content` fails, the fallback counts
ALL `<p>` elements of the document — with no text-bearing filter and no
header/footer exclusion — and returns a wrapper around all of them iff more
than 3 exist, `None` otherwise.  The text-bearing/header-footer filter
belongs to `ArticleParser.parse_article`'s separate fallback, which fires
whenever the content selectors produced nothing and at least one `<p>`
exists — with no 4-element floor. -/
theorem C1_paragraph_fallback :
    (∀ (html_content : String) (doc : List Node), html_content ≠ "" →
      (article_selectors.all (fun s => (select_one doc s).isNone)) = true →
      extract_article_content html_content doc =
        (if 3 < (findAllTag doc "p").length then
          some ("<div class=\"extracted-content\">\n" ++
            String.join ((findAllTag doc "p").map (fun p => renderNode p.1 ++ "\n")) ++
            "</div>")
        else none)) ∧
    (∀ (html_content : String) (doc : List Node) (r : ParsedArticle), html_content ≠ "" →
      parse_article html_content doc = some r →
      contentLoop doc content_selectors = "" →
      r.content =
        (if (findAllTag doc "p").isEmpty then ""
         else "<div class=\"article-content\">" ++
           String.join ((textBearingParagraphs doc).map (fun p => renderNode p.1)) ++
           "</div>")) := by
  constructor
  · intro html_content doc hne hall
    unfold extract_article_content
    rw [if_neg hne]
    have hfs : article_selectors.findSome? (select_one doc) = none := by
      rw [List.findSome?_eq_none_iff]
      intro s hs
      exact Option.isNone_iff_eq_none.mp (List.all_eq_true.mp hall s hs)
    rw [hfs]
  · intro html_content doc r hne hpr hcl
    unfold parse_article at hpr
    rw [if_neg hne] at hpr
    have hx := Option.some.inj hpr
    subst hx
    show (if contentLoop doc content_selectors = "" then parseArticleContentFallback doc
          else contentLoop doc content_selectors) = _
    rw [hcl, if_pos rfl]
    rfl

/-- The concrete document of the C1 counterexample: four `<p>` elements,
only two of them text-bearing.  `C1html` is HTML whose `html.parser` soup is
exactly `C1doc`. -/
def C1doc : List Node :=
  [.elem "body" [] [.elem "p" [] [.text "a"], .elem "p" [] [],
                    .elem "p" [] [.text "b"], .elem "p" [] []]]

/-- See `C1doc`. -/
def C1html : String := "<body><p>a</p><p></p><p>b</p><p></p></body>"

/-- A one-paragraph document exercising `parse_article`'s fallback. -/
def C1doc2 : List Node := [.elem "body" [] [.elem "p" [] [.text "hi"]]]

/-- See `C1doc2`. -/
def C1html2 : String := "<body><p>hi</p></body>"

/-- Counterexample for C1 as frozen: on `C1doc` every selector fails and
only 2 text-bearing non-header/footer paragraphs exist — fewer than 4 — yet
the extractor returns a match (the wrapper over all 4 `<p>` elements). -/
theorem C1_counterexample :
    (article_selectors.all (fun s => (select_one C1doc s).isNone)) = true ∧
    (textBearingParagraphs C1doc).length = 2 ∧
    (extract_article_content C1html C1doc).isSome = true := by
  exact ⟨by decide, by decide, by decide⟩

/-- Witness for C1: the amended characterization applied at the two
concrete documents. -/
theorem C1_witness :
    extract_article_content C1html C1doc =
      (if 3 < (findAllTag C1doc "p").length then
        some ("<div class=\"extracted-content\">\n" ++
          String.join ((findAllTag C1doc "p").map (fun p => renderNode p.1 ++ "\n")) ++
          "</div>")
      else none) ∧
    (⟨"无标题", "", "", "", "<div class=\"article-content\"><p>hi</p></div>", ""⟩ :
        ParsedArticle).content =
      (if (findAllTag C1doc2 "p").isEmpty then ""
       else "<div class=\"article-content\">" ++
         String.join ((textBearingParagraphs C1doc2).map (fun p => renderNode p.1)) ++
         "</div>") :=
  ⟨C1_paragraph_fallback.1 C1html C1doc (by decide) (by decide),
   C1_paragraph_fallback.2 C1html2 C1doc2 _ (by decide) (by decide) (by decide)⟩

/-! ## C2: title and author can be empty -/

/-- The first selector match carrying non-empty stripped text, in chain
order (how the claim reads the selector loop). -/
def firstNonEmptySel (doc : List Node) (sels : List Sel) : Option (Node × List Node) :=
  (sels.filterMap (select_one doc)).find? (fun e => strippedText e.1 != "")

/-- The meta-tag author fallback value: the `content` attribute of
`<meta name="author">` when the tag exists, else the empty string. -/
def metaAuthorContent (doc : List Node) : String :=
  match findMetaAuthor doc with
  | some m => (attrGet m "content").getD ""
  | none => ""

/-- What the title selector loop really computes: the first match with
non-empty text when one exists; otherwise whatever the LAST selector
returned (the loop variable is overwritten each iteration), falling back to
the initial value only for an empty chain. -/
theorem titleLoop_eq (doc : List Node) :
    ∀ (sels : List Sel) (last : Option (Node × List Node)),
      titleLoop doc sels last =
        match (sels.filterMap (select_one doc)).find? (fun e => strippedText e.1 != "") with
        | some e => some e
        | none =>
          match sels.getLast? with
          | some s => select_one doc s
          | none => last := by
  intro sels
  induction sels with
  | nil => intro last; rfl
  | cons s rest ih =>
    intro last
    simp only [titleLoop]
    cases hso : select_one doc s with
    | none =>
      simp only [List.filterMap_cons, hso]
      rw [ih none]
      cases rest with
      | nil => simp [hso]
      | cons s2 rest2 =>
        rw [List.getLast?_cons_cons]
        cases hgl : (s2 :: rest2).getLast? with
        | none => simp at hgl
        | some y => rfl
    | some e =>
      simp only [List.filterMap_cons, hso]
      by_cases ht : strippedText e.1 = ""
      · rw [if_neg (fun hcon => hcon ht)]
        rw [ih (some e)]
        rw [List.find?_cons_of_neg _ (by simp [ht])]
        cases rest with
        | nil => simp [hso]
        | cons s2 rest2 =>
          rw [List.getLast?_cons_cons]
          cases hgl : (s2 :: rest2).getLast? with
          | none => simp at hgl
          | some y => rfl
      · rw [if_pos ht]
        rw [List.find?_cons_of_pos _ (by simp [ht])]

/-- The author computation of `parse_article`, in closed form: the byline
value when non-empty, else the meta content (or empty). -/
theorem author_meta_eq (o : Option Node) (a : String) :
    (if a = "" then
       match o with
       | some m =>
         match attrGet m "content" with
         | some c => if c ≠ "" then c else a
         | none => a
       | none => a
     else a) =
    (if a ≠ "" then a
     else
       match o with
       | some m => (attrGet m "content").getD ""
       | none => "") := by
  by_cases ha : a = ""
  · subst ha
    rw [if_pos rfl, if_neg (fun h => h rfl)]
    cases o with
    | none => rfl
    | some m =>
      dsimp only
      cases attrGet m "content" with
      | none => rfl
      | some c =>
        by_cases hc : c = ""
        · subst hc
          simp
        · simp [hc]
  · rw [if_neg ha, if_pos ha]

/-- C2 (amended): the record `parse_article` returns has the sentinel title
`无标题` when the last-resort `title` selector matches nothing, and a
non-empty title when some selector matches non-empty text — but when no
selector matches non-empty text and a `<title>` element exists, the title
is that element's stripped text, which may be the EMPTY string.  The author
has no sentinel at all: it is the first byline selector's non-empty text,
else the meta author content, else the empty string, and is empty exactly
when both sources are. -/
theorem C2_title_author_fields
    (html_content : String) (doc : List Node) (r : ParsedArticle)
    (hne : html_content ≠ "") (hpr : parse_article html_content doc = some r) :
    ((firstNonEmptySel doc title_selectors).isSome = true → r.title ≠ "") ∧
    ((firstNonEmptySel doc title_selectors).isNone = true →
      ((select_one doc (Sel.simple (tagSel "title"))).isNone = true → r.title = "无标题") ∧
      (∀ e anc, select_one doc (Sel.simple (tagSel "title")) = some (e, anc) →
        r.title = strippedText e)) ∧
    (r.author =
      (if authorLoop doc author_selectors ≠ "" then authorLoop doc author_selectors
       else metaAuthorContent doc)) ∧
    (r.author = "" ↔ authorLoop doc author_selectors = "" ∧ metaAuthorContent doc = "") := by
  unfold parse_article at hpr
  rw [if_neg hne] at hpr
  have hx := Option.some.inj hpr
  subst hx
  have hlast : title_selectors.getLast? = some (Sel.simple (tagSel "title")) := rfl
  have htitle : (match titleLoop doc title_selectors none with
      | some e => strippedText e.1
      | none => "无标题") =
      (match firstNonEmptySel doc title_selectors with
       | some e => strippedText e.1
       | none =>
         match select_one doc (Sel.simple (tagSel "title")) with
         | some e => strippedText e.1
         | none => "无标题") := by
    rw [titleLoop_eq doc title_selectors none, hlast]
    unfold firstNonEmptySel
    cases hfind : (title_selectors.filterMap (select_one doc)).find?
        (fun e => strippedText e.1 != "") with
    | some e => rfl
    | none => rfl
  have hauthor : (if authorLoop doc author_selectors = "" then
        match findMetaAuthor doc with
        | some m =>
          match attrGet m "content" with
          | some c => if c ≠ "" then c else authorLoop doc author_selectors
          | none => authorLoop doc author_selectors
        | none => authorLoop doc author_selectors
      else authorLoop doc author_selectors) =
      (if authorLoop doc author_selectors ≠ "" then authorLoop doc author_selectors
       else metaAuthorContent doc) := by
    rw [author_meta_eq (findMetaAuthor doc) (authorLoop doc author_selectors)]
    unfold metaAuthorContent
    rfl
  refine ⟨?_, ?_, ?_, ?_⟩
  · intro hsome
    show (match titleLoop doc title_selectors none with
          | some e => strippedText e.1
          | none => "无标题") ≠ ""
    rw [htitle]
    obtain ⟨e, he⟩ := Option.isSome_iff_exists.mp hsome
    rw [he]
    have hp := List.find?_some he
    simpa using hp
  · intro hnone
    rw [Option.isNone_iff_eq_none] at hnone
    constructor
    · intro h2
      rw [Option.isNone_iff_eq_none] at h2
      show (match titleLoop doc title_selectors none with
            | some e => strippedText e.1
            | none => "无标题") = _
      rw [htitle, hnone, h2]
    · intro e anc h2
      show (match titleLoop doc title_selectors none with
            | some e => strippedText e.1
            | none => "无标题") = _
      rw [htitle, hnone, h2]
  · exact hauthor
  · show (if authorLoop doc author_selectors = "" then
        match findMetaAuthor doc with
        | some m =>
          match attrGet m "content" with
          | some c => if c ≠ "" then c else authorLoop doc author_selectors
          | none => authorLoop doc author_selectors
        | none => authorLoop doc author_selectors
      else authorLoop doc author_selectors) = "" ↔ _
    rw [hauthor]
    by_cases ha : authorLoop doc author_selectors = ""
    · rw [if_neg (fun hcon => hcon ha)]
      simp [ha]
    · rw [if_pos ha]
      simp [ha]

/-- The C2 counterexample document: an empty `<title>` element, no byline,
no meta author.  `C2html` is HTML whose `html.parser` soup is `C2doc`. -/
def C2doc : List Node :=
  [.elem "html" [] [.elem "head" [] [.elem "title" [] []],
                    .elem "body" [] [.elem "p" [] [.text "hi"]]]]

/-- See `C2doc`. -/
def C2html : String :=
  "<html><head><title></title></head><body><p>hi</p></body></html>"

/-- Counterexample for C2 as frozen: on `C2doc` the parser returns a record
whose title AND author are both the empty string — no 无标题/unknown
sentinel is applied. -/
theorem C2_counterexample :
    ∃ r : ParsedArticle, parse_article C2html C2doc = some r ∧
      r.title = "" ∧ r.author = "" :=
  ⟨⟨"", "", "", "", "<div class=\"article-content\"><p>hi</p></div>", ""⟩,
    by decide, rfl, rfl⟩

/-- Witness for C2: the author characterization applied to the concrete
document. -/
theorem C2_witness :
    (⟨"", "", "", "", "<div class=\"article-content\"><p>hi</p></div>", ""⟩ :
        ParsedArticle).author =
      (if authorLoop C2doc author_selectors ≠ "" then authorLoop C2doc author_selectors
       else metaAuthorContent C2doc) :=
  (C2_title_author_fields C2html C2doc _ (by decide) (by decide)).2.2.1
